import Mathlib

/-!
# Wallet / money-movement backend — shallow embedding

Shallow embedding of the money-movement core of the backend:
the transfer engine (`send_money`, `calculate_fee` from
`routes/transaction_routes.py`), deposit initiation and gateway
reconciliation (`pesapay_deposit`, `pesapay_callback`,
`check_payment_status`, `check_pesapal_transaction_status` from
`routes/wallet_routes.py`), manual funding (`add_funds`) and the admin
balance adjustment (`admin_adjust_wallet` from `routes/admin_routes.py`).

Monetary amounts are modelled as exact rationals; the Python source
stores them in binary floats and rounds with `round(x, 2)`
(round-half-to-even), which we mirror on rationals with `round2`.
The database is a pair of lists (wallets, transactions); SQLAlchemy
`filter_by(...).first()` becomes `List.find?` and in-place ORM mutation
becomes a key-preserving `List.map`.
-/

namespace FPass

/-- Modelled from the spec: the `Wallet` model file is absent from the
sources (only its uses appear, e.g. `wallet.balance`, `wallet.status`,
`Wallet.query.get`, `filter_by(user_id=...)`, `filter_by(wallet_id=...)`).
Fields follow spec §3: internal id, external `wallet_id`, owner
`user_id`, `balance`, `status` in {active, frozen}. -/
structure Wallet where
  id : Nat
  user_id : Nat
  wallet_id : String
  balance : ℚ
  status : String
  deriving Repr, DecidableEq

/-- The `Transaction` ledger row, from `models/transaction.py`
(timestamps and the M-Pesa receipt column are dropped: no claim
mentions them). -/
structure Transaction where
  transaction_id : String
  sender_id : Nat
  receiver_id : Nat
  amount : ℚ
  fee : ℚ
  total_amount : ℚ
  type : String
  status : String
  note : String
  merchant_request_id : Option String
  checkout_request_id : Option String
  deriving Repr, DecidableEq

/-- The ledger store: the `wallets` and `transactions` tables. -/
structure DB where
  wallets : List Wallet
  transactions : List Transaction
  deriving Repr, DecidableEq

/-- `Wallet.query.filter_by(user_id=uid).first()`. -/
def findWalletByUser (db : DB) (uid : Nat) : Option Wallet :=
  db.wallets.find? (fun w => w.user_id == uid)

/-- `Wallet.query.filter_by(wallet_id=wid).first()`. -/
def findWalletById (db : DB) (wid : String) : Option Wallet :=
  db.wallets.find? (fun w => w.wallet_id == wid)

/-- `Wallet.query.get(pk)` — primary-key lookup. -/
def findWalletByPk (db : DB) (i : Nat) : Option Wallet :=
  db.wallets.find? (fun w => w.id == i)

/-- `Transaction.query.filter_by(transaction_id=tid).first()`. -/
def findTxById (db : DB) (tid : String) : Option Transaction :=
  db.transactions.find? (fun t => t.transaction_id == tid)

/-- ORM in-place balance mutation on the wallet row(s) with external id
`wid`: `wallet.balance += d` (with `d` negative for a debit). -/
def adjustById (l : List Wallet) (wid : String) (d : ℚ) : List Wallet :=
  l.map fun w => if w.wallet_id = wid then { w with balance := w.balance + d } else w

/-- Balance mutation on the wallet row(s) owned by user `uid`. -/
def adjustByUser (l : List Wallet) (uid : Nat) (d : ℚ) : List Wallet :=
  l.map fun w => if w.user_id = uid then { w with balance := w.balance + d } else w

/-- Balance mutation on the wallet row with primary key `i`. -/
def adjustByPk (l : List Wallet) (i : Nat) (d : ℚ) : List Wallet :=
  l.map fun w => if w.id = i then { w with balance := w.balance + d } else w

/-- ORM in-place mutation of the transaction row(s) with id `tid`. -/
def updTx (l : List Transaction) (tid : String) (f : Transaction → Transaction) :
    List Transaction :=
  l.map fun t => if t.transaction_id = tid then f t else t

/-- Python's `str.upper()` (ASCII range, which covers every constant the
handlers compare against). -/
def pyUpper (s : String) : String := String.mk (s.data.map Char.toUpper)

/-! ## Rounding and the transfer fee -/

/-- Round a rational to the nearest integer, ties to even — the
behaviour of Python's `round` on exact inputs. -/
def roundHalfEven (q : ℚ) : ℤ :=
  let n := ⌊q⌋
  let r := q - (n : ℚ)
  if r < 1/2 then n
  else if 1/2 < r then n + 1
  else if n % 2 = 0 then n else n + 1

/-- Python's `round(q, 2)`. -/
def round2 (q : ℚ) : ℚ := (roundHalfEven (q * 100) : ℚ) / 100

/-- `calculate_fee` from `routes/transaction_routes.py`:
`round(amount * 0.015, 2)`. -/
def calculate_fee (amount : ℚ) : ℚ := round2 (amount * (15 / 1000))

/-! ## Transfer: `send_money` -/

/-- Outcome of `send_money`, one constructor per early return. -/
inductive SendResult where
  | invalidInput
  | senderNotFound
  | receiverNotFound
  | selfTransfer
  | insufficient
  | ok
  deriving Repr, DecidableEq

/-- `send_money` from `routes/transaction_routes.py`. `wallet_id` is the
receiver's external wallet id (`none`/`""` are falsy in Python); `txid`
stands for the generated `generate_unique_id('TXN')`. -/
def send_money (db : DB) (uid : Nat) (wallet_id : Option String) (amount : ℚ)
    (note : String) (txid : String) : SendResult × DB :=
  match wallet_id with
  | none => (.invalidInput, db)
  | some wid =>
    if wid = "" ∨ amount ≤ 0 then (.invalidInput, db)
    else
      match findWalletByUser db uid with
      | none => (.senderNotFound, db)
      | some sw =>
        match findWalletById db wid with
        | none => (.receiverNotFound, db)
        | some rw =>
          if sw.wallet_id = rw.wallet_id then (.selfTransfer, db)
          else
            let fee := calculate_fee amount
            let total := amount + fee
            if sw.balance < total then (.insufficient, db)
            else
              let ws := adjustById (adjustById db.wallets sw.wallet_id (-total))
                rw.wallet_id amount
              let tx : Transaction :=
                { transaction_id := txid
                  sender_id := uid
                  receiver_id := rw.user_id
                  amount := amount
                  fee := fee
                  total_amount := total
                  type := "transfer"
                  status := "completed"
                  note := note
                  merchant_request_id := none
                  checkout_request_id := none }
              (.ok, { wallets := ws, transactions := db.transactions ++ [tx] })

/-! ## Manual funding: `add_funds` -/

/-- Outcome of `add_funds`. -/
inductive AddFundsResult where
  | walletNotFound
  | invalidAmount
  | overMaximum
  | ok
  deriving Repr, DecidableEq

/-- `add_funds` from `routes/wallet_routes.py`. -/
def add_funds (db : DB) (uid : Nat) (amount : ℚ) (note : String) (txid : String) :
    AddFundsResult × DB :=
  match findWalletByUser db uid with
  | none => (.walletNotFound, db)
  | some _ =>
    if amount ≤ 0 then (.invalidAmount, db)
    else if 10000 < amount then (.overMaximum, db)
    else
      let tx : Transaction :=
        { transaction_id := txid
          sender_id := uid
          receiver_id := uid
          amount := amount
          fee := 0
          total_amount := amount
          type := "add_funds"
          status := "completed"
          note := note
          merchant_request_id := none
          checkout_request_id := none }
      (.ok, { wallets := adjustByUser db.wallets uid amount
              transactions := db.transactions ++ [tx] })

/-! ## Admin balance adjustment: `admin_adjust_wallet` -/

/-- Outcome of `admin_adjust_wallet`. -/
inductive AdjustResult where
  | walletNotFound
  | invalidAmount
  | insufficient
  | invalidAction
  | ok
  deriving Repr, DecidableEq

/-- `admin_adjust_wallet` from `routes/admin_routes.py`. `wid` is the
wallet's primary key (`Wallet.query.get`), `adminId` the acting admin
(`get_jwt_identity()`), `txid` the generated `generate_unique_id('ADM')`. -/
def admin_adjust_wallet (db : DB) (wid : Nat) (action : String) (amount : ℚ)
    (note : String) (adminId : Nat) (txid : String) : AdjustResult × DB :=
  match findWalletByPk db wid with
  | none => (.walletNotFound, db)
  | some w =>
    if amount ≤ 0 then (.invalidAmount, db)
    else if action = "add" then
      let tx : Transaction :=
        { transaction_id := txid
          sender_id := adminId
          receiver_id := w.user_id
          amount := amount
          fee := 0
          total_amount := amount
          type := "add_funds"
          status := "completed"
          note := if note = "" then "Admin added funds" else
            "Admin added funds: " ++ note
          merchant_request_id := none
          checkout_request_id := none }
      (.ok, { wallets := adjustByPk db.wallets wid amount
              transactions := db.transactions ++ [tx] })
    else if action = "deduct" then
      if w.balance < amount then (.insufficient, db)
      else
        let tx : Transaction :=
          { transaction_id := txid
            sender_id := w.user_id
            receiver_id := adminId
            amount := amount
            fee := 0
            total_amount := amount
            type := "admin_deduction"
            status := "completed"
            note := if note = "" then "Admin deducted funds" else
              "Admin deducted funds: " ++ note
            merchant_request_id := none
            checkout_request_id := none }
        (.ok, { wallets := adjustByPk db.wallets wid (-amount)
                transactions := db.transactions ++ [tx] })
    else (.invalidAction, db)

/-! ## Deposit initiation: `pesapay_deposit` -/

/-- Result of the outbound `SubmitOrderRequest` call (plus the token
acquisition that precedes it), as seen by `pesapay_deposit`:
`tokenFailure` models `get_pesapal_token` raising, `timeout` /
`connectionError` the corresponding `requests` exceptions, `invalidJson`
a body that fails to parse, and `response` a parsed reply carrying the
HTTP status, the body's `status` field and `order_tracking_id`. -/
inductive GatewayInitResult where
  | tokenFailure
  | timeout
  | connectionError
  | invalidJson
  | response (http_status : Nat) (body_status : String)
      (order_tracking_id : Option String)
  deriving Repr, DecidableEq

/-- Outcome of `pesapay_deposit`. -/
inductive DepositResult where
  | invalidAmount
  | walletNotFound
  | gatewayError
  | rejected
  | ok
  deriving Repr, DecidableEq

/-- `pesapay_deposit` from `routes/wallet_routes.py`. `txRef` stands for
the generated `generate_unique_id('PESAPAY')` merchant reference. -/
def pesapay_deposit (db : DB) (uid : Nat) (amount : ℚ) (txRef : String)
    (gateway : GatewayInitResult) : DepositResult × DB :=
  if amount ≤ 0 then (.invalidAmount, db)
  else
    match findWalletByUser db uid with
    | none => (.walletNotFound, db)
    | some _ =>
      match gateway with
      | .tokenFailure => (.gatewayError, db)
      | .timeout => (.gatewayError, db)
      | .connectionError => (.gatewayError, db)
      | .invalidJson => (.gatewayError, db)
      | .response hs bs otid =>
        if hs = 200 ∧ bs = "200" then
          let tx : Transaction :=
            { transaction_id := txRef
              sender_id := uid
              receiver_id := uid
              amount := amount
              fee := 0
              total_amount := amount
              type := "pesapay_deposit"
              status := "pending"
              note := "Pesapal deposit pending - Ref: " ++ txRef
              merchant_request_id := otid
              checkout_request_id := some txRef }
          (.ok, { db with transactions := db.transactions ++ [tx] })
        else (.rejected, db)

/-! ## Gateway reconciliation: `pesapay_callback` -/

/-- The parsed body of the gateway's `GetTransactionStatus` reply, the
fields the handlers read: `payment_status_description` (uppercased on
use), the settled `amount` (`float(status_data.get('amount', 0))`),
`status_code` (`None` when absent) and `payment_method`. -/
structure GatewayStatus where
  payment_status_description : String
  amount : ℚ
  status_code : Option Int
  payment_method : String
  deriving Repr, DecidableEq

/-- `is_completed` — the callback's completed-indicator check:
`status_code == 1` or the uppercased description is `'COMPLETED'`. -/
def isCompletedOutcome (gs : GatewayStatus) : Prop :=
  gs.status_code = some 1 ∨ pyUpper gs.payment_status_description = "COMPLETED"

/-- `is_failed` — the callback's failed-indicator check:
`status_code in [2, 3]` or the uppercased description in
`['FAILED', 'CANCELLED', 'INVALID']`. -/
def isFailedOutcome (gs : GatewayStatus) : Prop :=
  (gs.status_code = some 2 ∨ gs.status_code = some 3) ∨
    (pyUpper gs.payment_status_description = "FAILED" ∨
     pyUpper gs.payment_status_description = "CANCELLED" ∨
     pyUpper gs.payment_status_description = "INVALID")

instance (gs : GatewayStatus) : Decidable (isCompletedOutcome gs) := by
  unfold isCompletedOutcome; infer_instance

instance (gs : GatewayStatus) : Decidable (isFailedOutcome gs) := by
  unfold isFailedOutcome; infer_instance

/-- Outcome of `pesapay_callback` (the handler's HTTP reply):
`missingParams` is the 400 for absent query parameters, `verifyFailed`
the 500 when the status fetch is not HTTP 200, `txNotFound` the
acknowledging 200 for an unknown merchant reference, `walletNotFound`
the 404, and `ok` the final acknowledging 200. -/
inductive CallbackResult where
  | missingParams
  | verifyFailed
  | txNotFound
  | walletNotFound
  | ok
  deriving Repr, DecidableEq

/-- `pesapay_callback` from `routes/wallet_routes.py`. `otid?` / `mref?`
are the `OrderTrackingId` / `OrderMerchantReference` query parameters
(`none` or `""` are falsy); `fetch` is the result of the
`GetTransactionStatus` call (`none` = non-200 reply). -/
def pesapay_callback (db : DB) (otid? mref? : Option String)
    (fetch : Option GatewayStatus) : CallbackResult × DB :=
  match otid?, mref? with
  | none, _ => (.missingParams, db)
  | _, none => (.missingParams, db)
  | some otid, some mref =>
    if otid = "" ∨ mref = "" then (.missingParams, db)
    else
      match fetch with
      | none => (.verifyFailed, db)
      | some gs =>
        let desc := pyUpper gs.payment_status_description
        match findTxById db mref with
        | none => (.txNotFound, db)
        | some tx =>
          match findWalletByUser db tx.sender_id with
          | none =>
            let ts := updTx db.transactions mref
              (fun t => { t with status := "failed", note := "Wallet not found" })
            (.walletNotFound, { db with transactions := ts })
          | some _ =>
            if isCompletedOutcome gs then
              if tx.status ≠ "completed" then
                (.ok,
                  { wallets := adjustByUser db.wallets tx.sender_id gs.amount
                    transactions := updTx db.transactions mref (fun t =>
                      { t with
                        status := "completed"
                        amount := gs.amount
                        note := "Pesapal deposit successful - TXN: " ++ otid ++
                          " via " ++ gs.payment_method
                        merchant_request_id := some otid }) })
              else (.ok, db)
            else if isFailedOutcome gs then
              if tx.status ≠ "failed" then
                (.ok,
                  { db with transactions := updTx db.transactions mref (fun t =>
                      { t with
                        status := "failed"
                        note := "Pesapal deposit failed - Status: " ++ desc ++
                          ", Method: " ++ gs.payment_method
                        merchant_request_id := some otid }) })
              else (.ok, db)
            else
              (.ok,
                { db with transactions := updTx db.transactions mref (fun t =>
                    { t with
                      note := "Payment processing - " ++ desc
                      merchant_request_id := some otid }) })

/-! ## Live status mapping and the status poll -/

/-- `check_pesapal_transaction_status` from `routes/wallet_routes.py`,
the pure mapping from the raw gateway reply to a canonical code
(1 = completed, 2 = failed, 0 = invalid/unknown); `none` models a
non-200 reply or a raised exception, both of which return 0. -/
def check_pesapal_transaction_status (resp : Option GatewayStatus) : Nat :=
  match resp with
  | none => 0
  | some gs =>
    if isCompletedOutcome gs then 1
    else if isFailedOutcome gs then 2
    else 0

/-- Python truthiness of the stored `merchant_request_id`. -/
def hasMri (m : Option String) : Bool :=
  match m with
  | none => false
  | some s => s ≠ ""

/-- Outcome of `check_payment_status`: `ok status pesapalStatus`
carries the transaction status reported back to the client and the
`pesapal_status_code` field (`none` when no live check ran or it
raised). -/
inductive PollResult where
  | txNotFound
  | accessDenied
  | ok (status : String) (pesapalStatus : Option Nat)
  deriving Repr, DecidableEq

/-- `check_payment_status` from `routes/wallet_routes.py` — the status
poll. `live` is the value of `check_pesapal_transaction_status` on the
stored correlation id (`none` = that call raised). The live check only
runs when the stored status is `'pending'` and a truthy
`merchant_request_id` is stored. -/
def check_payment_status (db : DB) (uid : Nat) (reference : String)
    (live : Option Nat) : PollResult × DB :=
  match findTxById db reference with
  | none => (.txNotFound, db)
  | some tx =>
    if tx.sender_id ≠ uid then (.accessDenied, db)
    else if tx.status = "pending" ∧ hasMri tx.merchant_request_id then
      match live with
      | none => (.ok tx.status none, db)
      | some ps =>
        if ps = 1 then
          match findWalletByUser db uid with
          | some _ =>
            (.ok "completed" (some ps),
              { wallets := adjustByUser db.wallets uid tx.amount
                transactions := updTx db.transactions reference (fun t =>
                  { t with
                    status := "completed"
                    note := "Pesapal deposit completed (verified via status check)" }) })
          | none => (.ok tx.status (some ps), db)
        else if ps = 2 ∨ ps = 3 then
          (.ok "failed" (some ps),
            { db with transactions := updTx db.transactions reference (fun t =>
                { t with
                  status := "failed"
                  note := "Pesapal deposit failed (verified via status check)" }) })
        else (.ok tx.status (some ps), db)
    else (.ok tx.status none, db)

/-! ## General lemmas about the ledger-store primitives -/

theorem roundHalfEven_intCast (n : ℤ) : roundHalfEven (n : ℚ) = n := by
  simp [roundHalfEven]

theorem find?_mapKeyInv {α : Type*} (g : α → α) (p : α → Bool)
    (h : ∀ a, p (g a) = p a) (l : List α) :
    (l.map g).find? p = Option.map g (l.find? p) := by
  rw [List.find?_map]
  have hpg : p ∘ g = p := funext h
  rw [hpg]

theorem find?_key_nodup {α : Type*} {κ : Type*} [DecidableEq κ] (k : α → κ) :
    ∀ {l : List α}, (l.map k).Nodup → ∀ {x : α}, x ∈ l →
      l.find? (fun y => k y == k x) = some x := by
  intro l
  induction l with
  | nil => intro _ x hx; simp at hx
  | cons a t ih =>
    intro hnd x hx
    have hnd' : k a ∉ t.map k ∧ (t.map k).Nodup := by
      simpa [List.nodup_cons] using hnd
    rcases List.mem_cons.mp hx with rfl | hxt
    · simp [List.find?_cons]
    · have hka : (k a == k x) = false := by
        simp only [beq_eq_false_iff_ne, ne_eq]
        intro he
        exact hnd'.1 (he ▸ List.mem_map_of_mem k hxt)
      simpa [List.find?_cons, hka] using ih hnd'.2 hxt

theorem findWalletByUser_adjustById (l : List Wallet)
    (wid : String) (d : ℚ) (uid : Nat) :
    (adjustById l wid d).find? (fun w => w.user_id == uid) =
      Option.map
        (fun w => if w.wallet_id = wid then { w with balance := w.balance + d } else w)
        (l.find? (fun w => w.user_id == uid)) := by
  apply find?_mapKeyInv
  intro w
  by_cases h : w.wallet_id = wid <;> simp [h]

theorem findWalletById_adjustById (l : List Wallet)
    (wid : String) (d : ℚ) (wid' : String) :
    (adjustById l wid d).find? (fun w => w.wallet_id == wid') =
      Option.map
        (fun w => if w.wallet_id = wid then { w with balance := w.balance + d } else w)
        (l.find? (fun w => w.wallet_id == wid')) := by
  apply find?_mapKeyInv
  intro w
  by_cases h : w.wallet_id = wid <;> simp [h]

theorem findWalletByUser_adjustByUser (l : List Wallet)
    (u : Nat) (d : ℚ) (uid : Nat) :
    (adjustByUser l u d).find? (fun w => w.user_id == uid) =
      Option.map
        (fun w => if w.user_id = u then { w with balance := w.balance + d } else w)
        (l.find? (fun w => w.user_id == uid)) := by
  apply find?_mapKeyInv
  intro w
  by_cases h : w.user_id = u <;> simp [h]

theorem findWalletByPk_adjustByPk (l : List Wallet)
    (i : Nat) (d : ℚ) (i' : Nat) :
    (adjustByPk l i d).find? (fun w => w.id == i') =
      Option.map
        (fun w => if w.id = i then { w with balance := w.balance + d } else w)
        (l.find? (fun w => w.id == i')) := by
  apply find?_mapKeyInv
  intro w
  by_cases h : w.id = i <;> simp [h]

theorem findTxById_updTx (l : List Transaction)
    (tid : String) (f : Transaction → Transaction)
    (hf : ∀ t, (f t).transaction_id = t.transaction_id) (tid' : String) :
    (updTx l tid f).find? (fun t => t.transaction_id == tid') =
      Option.map (fun t => if t.transaction_id = tid then f t else t)
        (l.find? (fun t => t.transaction_id == tid')) := by
  apply find?_mapKeyInv
  intro t
  by_cases h : t.transaction_id = tid <;> simp [h, hf]

/-- C3 -/
theorem transfer_moves_amount_and_fee (db : DB) (uid : Nat) (wid : String)
    (amount : ℚ) (note txid : String) (sw rw : Wallet)
    (hwid : wid ≠ "") (hamt : 0 < amount)
    (hs : findWalletByUser db uid = some sw)
    (hr : findWalletById db wid = some rw)
    (hne : sw.wallet_id ≠ rw.wallet_id)
    (hbal : amount + calculate_fee amount ≤ sw.balance) :
    (send_money db uid (some wid) amount note txid).1 = .ok ∧
    calculate_fee amount = round2 (amount * (15 / 1000)) ∧
    findWalletByUser (send_money db uid (some wid) amount note txid).2 uid =
      some { sw with balance := sw.balance - (amount + calculate_fee amount) } ∧
    findWalletById (send_money db uid (some wid) amount note txid).2 wid =
      some { rw with balance := rw.balance + amount } ∧
    (send_money db uid (some wid) amount note txid).2.transactions =
      db.transactions ++
        [{ transaction_id := txid
           sender_id := uid
           receiver_id := rw.user_id
           amount := amount
           fee := calculate_fee amount
           total_amount := amount + calculate_fee amount
           type := "transfer"
           status := "completed"
           note := note
           merchant_request_id := none
           checkout_request_id := none }] := by
  have hno : ¬(wid = "" ∨ amount ≤ 0) := by
    push_neg
    exact ⟨hwid, hamt⟩
  have hnlt : ¬(sw.balance < amount + calculate_fee amount) := not_lt.mpr hbal
  have hrw_id : rw.wallet_id = wid := by
    have := List.find?_some hr
    simpa using this
  have hred : send_money db uid (some wid) amount note txid =
      (.ok,
        { wallets := adjustById
            (adjustById db.wallets sw.wallet_id (-(amount + calculate_fee amount)))
            rw.wallet_id amount
          transactions := db.transactions ++
            [{ transaction_id := txid
               sender_id := uid
               receiver_id := rw.user_id
               amount := amount
               fee := calculate_fee amount
               total_amount := amount + calculate_fee amount
               type := "transfer"
               status := "completed"
               note := note
               merchant_request_id := none
               checkout_request_id := none }] }) := by
    simp only [send_money, hs, hr, hno, hne, hnlt, ite_false, not_false_eq_true,
      if_false]
  refine ⟨by rw [hred], rfl, ?_, ?_, by rw [hred]⟩
  · simp only [hred, findWalletByUser]
    rw [findWalletByUser_adjustById, findWalletByUser_adjustById]
    have hs' : db.wallets.find? (fun w => w.user_id == uid) = some sw := hs
    rw [hs']
    simp only [Option.map_some']
    simp [hne, sub_eq_add_neg]
  · simp only [hred, findWalletById]
    rw [findWalletById_adjustById, findWalletById_adjustById]
    have hr' : db.wallets.find? (fun w => w.wallet_id == wid) = some rw := hr
    rw [hr']
    simp only [Option.map_some']
    have hne' : rw.wallet_id ≠ sw.wallet_id := fun h => hne h.symm
    simp [hne']

theorem transfer_moves_amount_and_fee_witness :
    calculate_fee 50 = 3/4 ∧
    (send_money ⟨[⟨1, 1, "WA", 100, "active"⟩, ⟨2, 2, "WB", 0, "active"⟩], []⟩ 1
      (some "WB") 50 "rent" "T1").1 = .ok ∧
    findWalletByUser (send_money ⟨[⟨1, 1, "WA", 100, "active"⟩,
      ⟨2, 2, "WB", 0, "active"⟩], []⟩ 1 (some "WB") 50 "rent" "T1").2 1 =
      some ⟨1, 1, "WA", 4925/100, "active"⟩ ∧
    findWalletById (send_money ⟨[⟨1, 1, "WA", 100, "active"⟩,
      ⟨2, 2, "WB", 0, "active"⟩], []⟩ 1 (some "WB") 50 "rent" "T1").2 "WB" =
      some ⟨2, 2, "WB", 50, "active"⟩ ∧
    (send_money ⟨[⟨1, 1, "WA", 100, "active"⟩, ⟨2, 2, "WB", 0, "active"⟩], []⟩ 1
      (some "WB") 50 "rent" "T1").2.transactions =
      [⟨"T1", 1, 2, 50, 3/4, 5075/100, "transfer", "completed", "rent", none, none⟩] := by
  have h75 : ((50:ℚ) * (15/1000) * 100) = ((75:ℤ):ℚ) := by norm_num
  have hfee : calculate_fee 50 = 3/4 := by
    unfold calculate_fee round2
    rw [h75, roundHalfEven_intCast]
    norm_num
  have H := transfer_moves_amount_and_fee
    ⟨[⟨1, 1, "WA", 100, "active"⟩, ⟨2, 2, "WB", 0, "active"⟩], []⟩ 1 "WB" 50
    "rent" "T1" ⟨1, 1, "WA", 100, "active"⟩ ⟨2, 2, "WB", 0, "active"⟩
    (by decide) (by norm_num) rfl rfl (by decide)
    (by rw [hfee]; norm_num)
  obtain ⟨h1, _, h3, h4, h5⟩ := H
  rw [hfee] at h3 h5
  have e1 : (100:ℚ) - (50 + 3/4) = 4925/100 := by norm_num
  have e2 : (50:ℚ) + 3/4 = 5075/100 := by norm_num
  rw [e1] at h3
  rw [e2] at h5
  have e3 : (0:ℚ) + 50 = 50 := by norm_num
  rw [e3] at h4
  exact ⟨hfee, h1, h3, h4, h5⟩

/-- C5 -/
theorem transfer_rejects_bad_amount_and_insufficient (db : DB) (uid : Nat)
    (wid : String) (amount : ℚ) (note txid : String) :
    (amount ≤ 0 →
      (send_money db uid (some wid) amount note txid).1 = .invalidInput ∧
      (send_money db uid (some wid) amount note txid).2 = db) ∧
    (∀ sw rw : Wallet, 0 < amount → wid ≠ "" → findWalletByUser db uid = some sw →
      findWalletById db wid = some rw → sw.wallet_id ≠ rw.wallet_id →
      sw.balance < amount + calculate_fee amount →
      (send_money db uid (some wid) amount note txid).1 = .insufficient ∧
      (send_money db uid (some wid) amount note txid).2 = db) := by
  constructor
  · intro h
    rw [send_money, if_pos (Or.inr h)]
    exact ⟨rfl, rfl⟩
  · intro sw rw hamt hwid hs hr hne hlt
    have hno : ¬(wid = "" ∨ amount ≤ 0) := by
      push_neg
      exact ⟨hwid, hamt⟩
    have : send_money db uid (some wid) amount note txid = (.insufficient, db) := by
      simp only [send_money, hs, hr, hno, hne, hlt, ite_false, not_false_eq_true,
        if_false, ite_true, if_true]
    rw [this]
    exact ⟨rfl, rfl⟩

theorem transfer_rejects_bad_amount_and_insufficient_witness :
    ((send_money ⟨[⟨1, 1, "WA", 10, "active"⟩, ⟨2, 2, "WB", 0, "active"⟩], []⟩ 1
        (some "WB") 0 "x" "T1").1 = .invalidInput ∧
      (send_money ⟨[⟨1, 1, "WA", 10, "active"⟩, ⟨2, 2, "WB", 0, "active"⟩], []⟩ 1
        (some "WB") 0 "x" "T1").2 =
        ⟨[⟨1, 1, "WA", 10, "active"⟩, ⟨2, 2, "WB", 0, "active"⟩], []⟩) ∧
    ((send_money ⟨[⟨1, 1, "WA", 10, "active"⟩, ⟨2, 2, "WB", 0, "active"⟩], []⟩ 1
        (some "WB") 20 "x" "T1").1 = .insufficient ∧
      (send_money ⟨[⟨1, 1, "WA", 10, "active"⟩, ⟨2, 2, "WB", 0, "active"⟩], []⟩ 1
        (some "WB") 20 "x" "T1").2 =
        ⟨[⟨1, 1, "WA", 10, "active"⟩, ⟨2, 2, "WB", 0, "active"⟩], []⟩) := by
  have h30 : ((20:ℚ) * (15/1000) * 100) = ((30:ℤ):ℚ) := by norm_num
  have hfee : calculate_fee 20 = 3/10 := by
    unfold calculate_fee round2
    rw [h30, roundHalfEven_intCast]
    norm_num
  constructor
  · exact (transfer_rejects_bad_amount_and_insufficient
      ⟨[⟨1, 1, "WA", 10, "active"⟩, ⟨2, 2, "WB", 0, "active"⟩], []⟩ 1 "WB" 0
      "x" "T1").1 (by norm_num)
  · exact (transfer_rejects_bad_amount_and_insufficient
      ⟨[⟨1, 1, "WA", 10, "active"⟩, ⟨2, 2, "WB", 0, "active"⟩], []⟩ 1 "WB" 20
      "x" "T1").2 ⟨1, 1, "WA", 10, "active"⟩ ⟨2, 2, "WB", 0, "active"⟩
      (by norm_num) (by decide) rfl rfl (by decide) (by rw [hfee]; norm_num)

theorem calculate_fee_50 : calculate_fee 50 = 3/4 := by
  have h75 : ((50:ℚ) * (15/1000) * 100) = ((75:ℤ):ℚ) := by norm_num
  unfold calculate_fee round2
  rw [h75, roundHalfEven_intCast]
  norm_num

/-- C6 counterexample -/
theorem frozen_sender_transfer_succeeds_cex :
    (send_money ⟨[⟨1, 1, "WA", 100, "frozen"⟩, ⟨2, 2, "WB", 0, "active"⟩], []⟩ 1
      (some "WB") 50 "n" "T2").1 = .ok ∧
    findWalletByUser (send_money ⟨[⟨1, 1, "WA", 100, "frozen"⟩,
      ⟨2, 2, "WB", 0, "active"⟩], []⟩ 1 (some "WB") 50 "n" "T2").2 1 =
      some ⟨1, 1, "WA", 4925/100, "frozen"⟩ := by
  have hno : ¬(("WB":String) = "" ∨ (50:ℚ) ≤ 0) := by
    push_neg
    exact ⟨by decide, by norm_num⟩
  have hs : findWalletByUser ⟨[⟨1, 1, "WA", 100, "frozen"⟩,
      ⟨2, 2, "WB", 0, "active"⟩], []⟩ 1 = some ⟨1, 1, "WA", 100, "frozen"⟩ := rfl
  have hr : findWalletById ⟨[⟨1, 1, "WA", 100, "frozen"⟩,
      ⟨2, 2, "WB", 0, "active"⟩], []⟩ "WB" = some ⟨2, 2, "WB", 0, "active"⟩ := rfl
  have hne : (⟨1, 1, "WA", 100, "frozen"⟩ : Wallet).wallet_id ≠
      (⟨2, 2, "WB", 0, "active"⟩ : Wallet).wallet_id := by decide
  have hnlt : ¬((⟨1, 1, "WA", 100, "frozen"⟩ : Wallet).balance <
      50 + calculate_fee 50) := by
    show ¬((100:ℚ) < 50 + calculate_fee 50)
    rw [calculate_fee_50]
    norm_num
  have hred : send_money ⟨[⟨1, 1, "WA", 100, "frozen"⟩,
      ⟨2, 2, "WB", 0, "active"⟩], []⟩ 1 (some "WB") 50 "n" "T2" =
      (.ok,
        { wallets := adjustById (adjustById
            [⟨1, 1, "WA", 100, "frozen"⟩, ⟨2, 2, "WB", 0, "active"⟩]
            "WA" (-(50 + calculate_fee 50))) "WB" 50
          transactions := [⟨"T2", 1, 2, 50, calculate_fee 50,
            50 + calculate_fee 50, "transfer", "completed", "n", none, none⟩] }) := by
    simp only [send_money, hs, hr, hno, hne, hnlt, ite_false, not_false_eq_true,
      if_false, List.nil_append]
  constructor
  · rw [hred]
  · simp only [hred, findWalletByUser]
    rw [findWalletByUser_adjustById, findWalletByUser_adjustById]
    have hs' : List.find? (fun w => w.user_id == 1)
        [(⟨1, 1, "WA", 100, "frozen"⟩ : Wallet), ⟨2, 2, "WB", 0, "active"⟩] =
        some ⟨1, 1, "WA", 100, "frozen"⟩ := rfl
    rw [hs']
    simp only [Option.map_some']
    norm_num [calculate_fee_50]
    decide

/-- C6 amended -/
theorem transfer_ignores_sender_status (db : DB) (uid : Nat) (wid : String)
    (amount : ℚ) (note txid : String) (sw rw : Wallet)
    (_hfrozen : sw.status = "frozen")
    (hwid : wid ≠ "") (hamt : 0 < amount)
    (hs : findWalletByUser db uid = some sw)
    (hr : findWalletById db wid = some rw)
    (hne : sw.wallet_id ≠ rw.wallet_id)
    (hbal : amount + calculate_fee amount ≤ sw.balance) :
    (send_money db uid (some wid) amount note txid).1 = .ok ∧
    findWalletByUser (send_money db uid (some wid) amount note txid).2 uid =
      some { sw with balance := sw.balance - (amount + calculate_fee amount) } := by
  have hno : ¬(wid = "" ∨ amount ≤ 0) := by
    push_neg
    exact ⟨hwid, hamt⟩
  have hnlt : ¬(sw.balance < amount + calculate_fee amount) := not_lt.mpr hbal
  have hred : send_money db uid (some wid) amount note txid =
      (.ok,
        { wallets := adjustById
            (adjustById db.wallets sw.wallet_id (-(amount + calculate_fee amount)))
            rw.wallet_id amount
          transactions := db.transactions ++
            [⟨txid, uid, rw.user_id, amount, calculate_fee amount,
              amount + calculate_fee amount, "transfer", "completed", note,
              none, none⟩] }) := by
    simp only [send_money, hs, hr, hno, hne, hnlt, ite_false, not_false_eq_true,
      if_false]
  refine ⟨by rw [hred], ?_⟩
  simp only [hred, findWalletByUser]
  rw [findWalletByUser_adjustById, findWalletByUser_adjustById]
  have hs' : db.wallets.find? (fun w => w.user_id == uid) = some sw := hs
  rw [hs']
  simp only [Option.map_some']
  simp [hne, sub_eq_add_neg]

theorem transfer_ignores_sender_status_witness :
    ((⟨1, 1, "WA", 100, "frozen"⟩ : Wallet).status = "frozen") ∧
    (send_money ⟨[⟨1, 1, "WA", 100, "frozen"⟩, ⟨2, 2, "WB", 0, "active"⟩], []⟩ 1
      (some "WB") 50 "n" "T2").1 = .ok := by
  refine ⟨rfl, ?_⟩
  exact (transfer_ignores_sender_status
    ⟨[⟨1, 1, "WA", 100, "frozen"⟩, ⟨2, 2, "WB", 0, "active"⟩], []⟩ 1 "WB" 50
    "n" "T2" ⟨1, 1, "WA", 100, "frozen"⟩ ⟨2, 2, "WB", 0, "active"⟩ rfl
    (by decide) (by norm_num) rfl rfl (by decide)
    (by rw [calculate_fee_50]; norm_num)).1

/-- C7 counterexample -/
theorem admin_adjust_type_cex :
    (admin_adjust_wallet ⟨[⟨1, 1, "WA", 100, "active"⟩], []⟩ 1 "add" 25 "" 9
        "A1").2.transactions.map (fun t => t.type) = ["add_funds"] ∧
    "add_funds" ≠ "admin_adjustment" := by
  constructor
  · norm_num [admin_adjust_wallet, findWalletByPk, List.find?_cons]
  · decide

/-- C7 amended -/
theorem admin_adjust_creates_audit_row (db : DB) (wid : Nat) (amount : ℚ)
    (note : String) (adminId : Nat) (txid : String) (w : Wallet)
    (hw : findWalletByPk db wid = some w) (hamt : 0 < amount) :
    ((admin_adjust_wallet db wid "add" amount note adminId txid).1 = .ok ∧
      (admin_adjust_wallet db wid "add" amount note adminId txid).2.transactions =
        db.transactions ++
          [⟨txid, adminId, w.user_id, amount, 0, amount, "add_funds", "completed",
            (if note = "" then "Admin added funds" else "Admin added funds: " ++ note),
            none, none⟩]) ∧
    (amount ≤ w.balance →
      (admin_adjust_wallet db wid "deduct" amount note adminId txid).1 = .ok ∧
      (admin_adjust_wallet db wid "deduct" amount note adminId txid).2.transactions =
        db.transactions ++
          [⟨txid, w.user_id, adminId, amount, 0, amount, "admin_deduction",
            "completed",
            (if note = "" then "Admin deducted funds" else "Admin deducted funds: " ++ note),
            none, none⟩]) := by
  have h0 : ¬(amount ≤ 0) := not_le.mpr hamt
  constructor
  · have hred : admin_adjust_wallet db wid "add" amount note adminId txid =
        (.ok,
          { wallets := adjustByPk db.wallets wid amount
            transactions := db.transactions ++
              [⟨txid, adminId, w.user_id, amount, 0, amount, "add_funds",
                "completed",
                (if note = "" then "Admin added funds" else "Admin added funds: " ++ note),
                none, none⟩] }) := by
      simp only [admin_adjust_wallet, hw, h0, ite_false, ite_true,
        not_false_eq_true, if_false, if_true]
    rw [hred]
    exact ⟨rfl, rfl⟩
  · intro hle
    have hnlt : ¬(w.balance < amount) := not_lt.mpr hle
    have hda : ("deduct" : String) = "add" ↔ False := by simp
    have hred : admin_adjust_wallet db wid "deduct" amount note adminId txid =
        (.ok,
          { wallets := adjustByPk db.wallets wid (-amount)
            transactions := db.transactions ++
              [⟨txid, w.user_id, adminId, amount, 0, amount, "admin_deduction",
                "completed",
                (if note = "" then "Admin deducted funds" else "Admin deducted funds: " ++ note),
                none, none⟩] }) := by
      simp only [admin_adjust_wallet, hw, h0, hnlt, hda, ite_false, ite_true,
        not_false_eq_true, if_false, if_true]
    rw [hred]
    exact ⟨rfl, rfl⟩

theorem admin_adjust_creates_audit_row_witness :
    (admin_adjust_wallet ⟨[⟨1, 1, "WA", 100, "active"⟩], []⟩ 1 "add" 25 "" 9
        "A1").2.transactions =
      [⟨"A1", 9, 1, 25, 0, 25, "add_funds", "completed", "Admin added funds",
        none, none⟩] ∧
    (admin_adjust_wallet ⟨[⟨1, 1, "WA", 100, "active"⟩], []⟩ 1 "deduct" 25 "" 9
        "A1").2.transactions =
      [⟨"A1", 1, 9, 25, 0, 25, "admin_deduction", "completed",
        "Admin deducted funds", none, none⟩] := by
  have H := admin_adjust_creates_audit_row ⟨[⟨1, 1, "WA", 100, "active"⟩], []⟩ 1
    25 "" 9 "A1" ⟨1, 1, "WA", 100, "active"⟩ rfl (by norm_num)
  obtain ⟨⟨_, h1⟩, h2⟩ := H
  obtain ⟨_, h3⟩ := h2 (by norm_num)
  refine ⟨?_, ?_⟩
  · simpa using h1
  · simpa using h3

/-- C8 -/
theorem deposit_row_only_on_gateway_success (db : DB) (uid : Nat) (amount : ℚ)
    (txRef : String) (gw : GatewayInitResult) (w : Wallet)
    (hamt : 0 < amount) (hw : findWalletByUser db uid = some w) :
    (∀ otid, gw = .response 200 "200" otid →
      pesapay_deposit db uid amount txRef gw =
        (.ok, { db with transactions := db.transactions ++
          [⟨txRef, uid, uid, amount, 0, amount, "pesapay_deposit", "pending",
            "Pesapal deposit pending - Ref: " ++ txRef, otid, some txRef⟩] })) ∧
    (∀ hs bs otid, gw = .response hs bs otid → ¬(hs = 200 ∧ bs = "200") →
      pesapay_deposit db uid amount txRef gw = (.rejected, db)) ∧
    ((gw = .tokenFailure ∨ gw = .timeout ∨ gw = .connectionError ∨
        gw = .invalidJson) →
      pesapay_deposit db uid amount txRef gw = (.gatewayError, db)) := by
  have h0 : ¬(amount ≤ 0) := not_le.mpr hamt
  refine ⟨?_, ?_, ?_⟩
  · intro otid hgw
    subst hgw
    simp only [pesapay_deposit, h0, hw, ite_false, not_false_eq_true, if_false]
    simp
  · intro hs bs otid hgw hbad
    subst hgw
    simp only [pesapay_deposit, h0, hw, ite_false, not_false_eq_true, if_false]
    rw [if_neg hbad]
  · rintro (rfl | rfl | rfl | rfl) <;>
      simp only [pesapay_deposit, h0, hw, ite_false, not_false_eq_true, if_false]

theorem deposit_row_only_on_gateway_success_witness :
    pesapay_deposit ⟨[⟨1, 1, "WA", 0, "active"⟩], []⟩ 1 25 "P1"
        (.response 200 "200" (some "OT1")) =
      (.ok, ⟨[⟨1, 1, "WA", 0, "active"⟩],
        [⟨"P1", 1, 1, 25, 0, 25, "pesapay_deposit", "pending",
          "Pesapal deposit pending - Ref: P1", some "OT1", some "P1"⟩]⟩) ∧
    pesapay_deposit ⟨[⟨1, 1, "WA", 0, "active"⟩], []⟩ 1 25 "P1" .timeout =
      (.gatewayError, ⟨[⟨1, 1, "WA", 0, "active"⟩], []⟩) ∧
    pesapay_deposit ⟨[⟨1, 1, "WA", 0, "active"⟩], []⟩ 1 25 "P1"
        (.response 400 "400" none) =
      (.rejected, ⟨[⟨1, 1, "WA", 0, "active"⟩], []⟩) := by
  have H := deposit_row_only_on_gateway_success ⟨[⟨1, 1, "WA", 0, "active"⟩], []⟩
    1 25 "P1" (.response 200 "200" (some "OT1")) ⟨1, 1, "WA", 0, "active"⟩
    (by norm_num) rfl
  have H2 := deposit_row_only_on_gateway_success ⟨[⟨1, 1, "WA", 0, "active"⟩], []⟩
    1 25 "P1" .timeout ⟨1, 1, "WA", 0, "active"⟩ (by norm_num) rfl
  have H3 := deposit_row_only_on_gateway_success ⟨[⟨1, 1, "WA", 0, "active"⟩], []⟩
    1 25 "P1" (.response 400 "400" none) ⟨1, 1, "WA", 0, "active"⟩
    (by norm_num) rfl
  refine ⟨?_, ?_, ?_⟩
  · have := H.1 (some "OT1") rfl
    simpa using this
  · exact H2.2.2 (Or.inr (Or.inl rfl))
  · exact H3.2.1 400 "400" none rfl (by norm_num)

/-! ## Reduction lemmas for `pesapay_callback` -/

theorem callback_red_completed (db : DB) (otid mref : String) (gs : GatewayStatus)
    (tx : Transaction) (w : Wallet)
    (ho : otid ≠ "") (hm : mref ≠ "")
    (htx : findTxById db mref = some tx)
    (hw : findWalletByUser db tx.sender_id = some w)
    (hc : isCompletedOutcome gs) (hnc : tx.status ≠ "completed") :
    pesapay_callback db (some otid) (some mref) (some gs) =
      (.ok, { wallets := adjustByUser db.wallets tx.sender_id gs.amount
              transactions := updTx db.transactions mref (fun t =>
                { t with
                  status := "completed"
                  amount := gs.amount
                  note := "Pesapal deposit successful - TXN: " ++ otid ++
                    " via " ++ gs.payment_method
                  merchant_request_id := some otid }) }) := by
  have hno : ¬(otid = "" ∨ mref = "") := not_or.mpr ⟨ho, hm⟩
  simp only [pesapay_callback, hno, htx, hw, hc, hnc, ite_true, ite_false,
    not_false_eq_true, if_true, if_false, ne_eq, if_pos]

theorem callback_red_completed_noop (db : DB) (otid mref : String)
    (gs : GatewayStatus) (tx : Transaction) (w : Wallet)
    (ho : otid ≠ "") (hm : mref ≠ "")
    (htx : findTxById db mref = some tx)
    (hw : findWalletByUser db tx.sender_id = some w)
    (hc : isCompletedOutcome gs) (hstat : tx.status = "completed") :
    pesapay_callback db (some otid) (some mref) (some gs) = (.ok, db) := by
  have hno : ¬(otid = "" ∨ mref = "") := not_or.mpr ⟨ho, hm⟩
  simp only [pesapay_callback, hno, htx, hw, hc, hstat, ite_true, ite_false,
    not_false_eq_true, if_true, if_false, ne_eq, not_true_eq_false]

theorem callback_red_failed (db : DB) (otid mref : String) (gs : GatewayStatus)
    (tx : Transaction) (w : Wallet)
    (ho : otid ≠ "") (hm : mref ≠ "")
    (htx : findTxById db mref = some tx)
    (hw : findWalletByUser db tx.sender_id = some w)
    (hnc : ¬ isCompletedOutcome gs) (hf : isFailedOutcome gs)
    (hnf : tx.status ≠ "failed") :
    pesapay_callback db (some otid) (some mref) (some gs) =
      (.ok, { db with transactions := updTx db.transactions mref (fun t =>
        { t with
          status := "failed"
          note := "Pesapal deposit failed - Status: " ++
            pyUpper gs.payment_status_description ++ ", Method: " ++
            gs.payment_method
          merchant_request_id := some otid }) }) := by
  have hno : ¬(otid = "" ∨ mref = "") := not_or.mpr ⟨ho, hm⟩
  simp only [pesapay_callback, hno, htx, hw, hnc, hf, hnf, ite_true, ite_false,
    not_false_eq_true, if_true, if_false, ne_eq, if_pos]

theorem callback_red_failed_noop (db : DB) (otid mref : String)
    (gs : GatewayStatus) (tx : Transaction) (w : Wallet)
    (ho : otid ≠ "") (hm : mref ≠ "")
    (htx : findTxById db mref = some tx)
    (hw : findWalletByUser db tx.sender_id = some w)
    (hnc : ¬ isCompletedOutcome gs) (hf : isFailedOutcome gs)
    (hstat : tx.status = "failed") :
    pesapay_callback db (some otid) (some mref) (some gs) = (.ok, db) := by
  have hno : ¬(otid = "" ∨ mref = "") := not_or.mpr ⟨ho, hm⟩
  simp only [pesapay_callback, hno, htx, hw, hnc, hf, hstat, ite_true, ite_false,
    not_false_eq_true, if_true, if_false, ne_eq, not_true_eq_false]

theorem callback_red_nowallet (db : DB) (otid mref : String) (gs : GatewayStatus)
    (tx : Transaction)
    (ho : otid ≠ "") (hm : mref ≠ "")
    (htx : findTxById db mref = some tx)
    (hw : findWalletByUser db tx.sender_id = none) :
    pesapay_callback db (some otid) (some mref) (some gs) =
      (.walletNotFound,
        { db with transactions := updTx db.transactions mref (fun t =>
            { t with status := "failed", note := "Wallet not found" }) }) := by
  have hno : ¬(otid = "" ∨ mref = "") := not_or.mpr ⟨ho, hm⟩
  simp only [pesapay_callback, hno, htx, hw, ite_true, ite_false,
    not_false_eq_true, if_true, if_false]

/-! ## Reduction lemmas for `check_payment_status` -/

theorem poll_red_credit (db : DB) (uid : Nat) (ref : String) (tx : Transaction)
    (w : Wallet)
    (htx : findTxById db ref = some tx) (hsend : tx.sender_id = uid)
    (hpend : tx.status = "pending") (hmri : hasMri tx.merchant_request_id = true)
    (hw : findWalletByUser db uid = some w) :
    check_payment_status db uid ref (some 1) =
      (.ok "completed" (some 1),
        { wallets := adjustByUser db.wallets uid tx.amount
          transactions := updTx db.transactions ref (fun t =>
            { t with
              status := "completed"
              note := "Pesapal deposit completed (verified via status check)" }) }) := by
  have hne : ¬(tx.sender_id ≠ uid) := not_not_intro hsend
  simp only [check_payment_status, htx, hne, hpend, hmri, hw, ite_true, ite_false,
    not_false_eq_true, if_true, if_false, and_self, ne_eq, not_true_eq_false]

theorem poll_red_noop_nonpending (db : DB) (uid : Nat) (ref : String)
    (tx : Transaction) (live : Option Nat)
    (htx : findTxById db ref = some tx) (hsend : tx.sender_id = uid)
    (hterm : tx.status ≠ "pending") :
    check_payment_status db uid ref live = (.ok tx.status none, db) := by
  have hne : ¬(tx.sender_id ≠ uid) := not_not_intro hsend
  have hcond : ¬(tx.status = "pending" ∧ hasMri tx.merchant_request_id = true) :=
    fun h => hterm h.1
  simp only [check_payment_status, htx, hne, hcond, ite_true, ite_false,
    not_false_eq_true, if_true, if_false, ne_eq]

/-- C10 -/
theorem callback_missing_wallet_fails_tx (db : DB) (otid mref : String)
    (gs : GatewayStatus) (tx : Transaction)
    (ho : otid ≠ "") (hm : mref ≠ "")
    (htx : findTxById db mref = some tx)
    (hw : findWalletByUser db tx.sender_id = none) :
    (pesapay_callback db (some otid) (some mref) (some gs)).1 = .walletNotFound ∧
    (pesapay_callback db (some otid) (some mref) (some gs)).2.wallets =
      db.wallets ∧
    findTxById (pesapay_callback db (some otid) (some mref) (some gs)).2 mref =
      some { tx with status := "failed", note := "Wallet not found" } := by
  have hid : tx.transaction_id = mref := by
    have := List.find?_some htx
    simpa using this
  have hred := callback_red_nowallet db otid mref gs tx ho hm htx hw
  refine ⟨by rw [hred], by rw [hred], ?_⟩
  simp only [hred, findTxById]
  rw [findTxById_updTx]
  · have htx' : db.transactions.find? (fun t => t.transaction_id == mref) =
        some tx := htx
    rw [htx']
    simp only [Option.map_some']
    rw [if_pos hid]
  · intro t
    rfl

theorem callback_missing_wallet_fails_tx_witness :
    (pesapay_callback
        ⟨[], [⟨"P1", 1, 1, 100, 0, 100, "pesapay_deposit", "pending", "x",
          some "OT1", some "P1"⟩]⟩ (some "OT1") (some "P1")
        (some ⟨"COMPLETED", 100, some 1, "M"⟩)).1 = .walletNotFound ∧
    (pesapay_callback
        ⟨[], [⟨"P1", 1, 1, 100, 0, 100, "pesapay_deposit", "pending", "x",
          some "OT1", some "P1"⟩]⟩ (some "OT1") (some "P1")
        (some ⟨"COMPLETED", 100, some 1, "M"⟩)).2.wallets = [] ∧
    findTxById (pesapay_callback
        ⟨[], [⟨"P1", 1, 1, 100, 0, 100, "pesapay_deposit", "pending", "x",
          some "OT1", some "P1"⟩]⟩ (some "OT1") (some "P1")
        (some ⟨"COMPLETED", 100, some 1, "M"⟩)).2 "P1" =
      some ⟨"P1", 1, 1, 100, 0, 100, "pesapay_deposit", "failed",
        "Wallet not found", some "OT1", some "P1"⟩ := by
  have H := callback_missing_wallet_fails_tx
    ⟨[], [⟨"P1", 1, 1, 100, 0, 100, "pesapay_deposit", "pending", "x",
      some "OT1", some "P1"⟩]⟩ "OT1" "P1" ⟨"COMPLETED", 100, some 1, "M"⟩
    ⟨"P1", 1, 1, 100, 0, 100, "pesapay_deposit", "pending", "x", some "OT1",
      some "P1"⟩ (by decide) (by decide) rfl rfl
  exact H

/-- C9 -/
theorem callback_completed_wins_over_failed (db : DB) (otid mref : String)
    (gs : GatewayStatus) (tx : Transaction) (w : Wallet)
    (ho : otid ≠ "") (hm : mref ≠ "")
    (htx : findTxById db mref = some tx)
    (hw : findWalletByUser db tx.sender_id = some w)
    (hc : isCompletedOutcome gs) (_hf : isFailedOutcome gs)
    (hpend : tx.status = "pending") :
    check_pesapal_transaction_status (some gs) = 1 ∧
    (pesapay_callback db (some otid) (some mref) (some gs)).1 = .ok ∧
    findTxById (pesapay_callback db (some otid) (some mref) (some gs)).2 mref =
      some { tx with
        status := "completed"
        amount := gs.amount
        note := "Pesapal deposit successful - TXN: " ++ otid ++ " via " ++
          gs.payment_method
        merchant_request_id := some otid } ∧
    findWalletByUser (pesapay_callback db (some otid) (some mref) (some gs)).2
        tx.sender_id =
      some { w with balance := w.balance + gs.amount } := by
  have hid : tx.transaction_id = mref := by
    have := List.find?_some htx
    simpa using this
  have huid : w.user_id = tx.sender_id := by
    have := List.find?_some hw
    simpa using this
  have hnc : tx.status ≠ "completed" := by
    rw [hpend]
    decide
  have hred := callback_red_completed db otid mref gs tx w ho hm htx hw hc hnc
  refine ⟨?_, by rw [hred], ?_, ?_⟩
  · simp only [check_pesapal_transaction_status, hc, if_pos]
  · simp only [hred, findTxById]
    rw [findTxById_updTx]
    · have htx' : db.transactions.find? (fun t => t.transaction_id == mref) =
          some tx := htx
      rw [htx']
      simp only [Option.map_some']
      rw [if_pos hid]
    · intro t
      rfl
  · simp only [hred, findWalletByUser]
    rw [findWalletByUser_adjustByUser]
    have hw' : db.wallets.find? (fun x => x.user_id == tx.sender_id) = some w := hw
    rw [hw']
    simp only [Option.map_some']
    rw [if_pos huid]

theorem callback_completed_wins_over_failed_witness :
    isCompletedOutcome ⟨"COMPLETED", 40, some 2, "M"⟩ ∧
    isFailedOutcome ⟨"COMPLETED", 40, some 2, "M"⟩ ∧
    check_pesapal_transaction_status (some ⟨"COMPLETED", 40, some 2, "M"⟩) = 1 ∧
    findWalletByUser (pesapay_callback
        ⟨[⟨1, 1, "WA", 5, "active"⟩],
         [⟨"P1", 1, 1, 40, 0, 40, "pesapay_deposit", "pending", "x",
           some "OT1", some "P1"⟩]⟩ (some "OT1") (some "P1")
        (some ⟨"COMPLETED", 40, some 2, "M"⟩)).2 1 =
      some ⟨1, 1, "WA", 45, "active"⟩ := by
  have hc : isCompletedOutcome ⟨"COMPLETED", 40, some 2, "M"⟩ := by
    right
    decide
  have hf : isFailedOutcome ⟨"COMPLETED", 40, some 2, "M"⟩ := by
    left
    left
    rfl
  have H := callback_completed_wins_over_failed
    ⟨[⟨1, 1, "WA", 5, "active"⟩],
     [⟨"P1", 1, 1, 40, 0, 40, "pesapay_deposit", "pending", "x", some "OT1",
       some "P1"⟩]⟩ "OT1" "P1" ⟨"COMPLETED", 40, some 2, "M"⟩
    ⟨"P1", 1, 1, 40, 0, 40, "pesapay_deposit", "pending", "x", some "OT1",
      some "P1"⟩ ⟨1, 1, "WA", 5, "active"⟩ (by decide) (by decide) rfl rfl hc hf
    rfl
  refine ⟨hc, hf, H.1, ?_⟩
  have h4 := H.2.2.2
  norm_num at h4 ⊢
  convert h4 using 2

/-- C1 counterexample -/
theorem success_callback_on_failed_tx_credits_cex :
    (pesapay_callback
        ⟨[⟨1, 1, "WA", 7, "active"⟩],
         [⟨"P1", 1, 1, 100, 0, 100, "pesapay_deposit", "failed", "x",
           some "OT1", some "P1"⟩]⟩ (some "OT1") (some "P1")
        (some ⟨"COMPLETED", 100, some 1, "M"⟩)).1 = .ok ∧
    (findTxById (pesapay_callback
        ⟨[⟨1, 1, "WA", 7, "active"⟩],
         [⟨"P1", 1, 1, 100, 0, 100, "pesapay_deposit", "failed", "x",
           some "OT1", some "P1"⟩]⟩ (some "OT1") (some "P1")
        (some ⟨"COMPLETED", 100, some 1, "M"⟩)).2 "P1").map (fun t => t.status) =
      some "completed" ∧
    findWalletByUser (pesapay_callback
        ⟨[⟨1, 1, "WA", 7, "active"⟩],
         [⟨"P1", 1, 1, 100, 0, 100, "pesapay_deposit", "failed", "x",
           some "OT1", some "P1"⟩]⟩ (some "OT1") (some "P1")
        (some ⟨"COMPLETED", 100, some 1, "M"⟩)).2 1 =
      some ⟨1, 1, "WA", 107, "active"⟩ := by
  have hred := callback_red_completed
    ⟨[⟨1, 1, "WA", 7, "active"⟩],
     [⟨"P1", 1, 1, 100, 0, 100, "pesapay_deposit", "failed", "x", some "OT1",
       some "P1"⟩]⟩ "OT1" "P1" ⟨"COMPLETED", 100, some 1, "M"⟩
    ⟨"P1", 1, 1, 100, 0, 100, "pesapay_deposit", "failed", "x", some "OT1",
      some "P1"⟩ ⟨1, 1, "WA", 7, "active"⟩ (by decide) (by decide) rfl rfl
    (Or.inl rfl) (by decide)
  refine ⟨by rw [hred], ?_, ?_⟩
  · rw [hred]
    rfl
  · simp only [hred, findWalletByUser]
    rw [findWalletByUser_adjustByUser]
    have hw' : List.find? (fun x => x.user_id == 1)
        [(⟨1, 1, "WA", 7, "active"⟩ : Wallet)] =
        some ⟨1, 1, "WA", 7, "active"⟩ := rfl
    rw [hw']
    simp only [Option.map_some']
    norm_num

/-- C1 amended -/
theorem terminal_reconcile_noop_on_matching_outcome :
    (∀ (db : DB) (uid : Nat) (ref : String) (tx : Transaction) (live : Option Nat),
      findTxById db ref = some tx → tx.sender_id = uid →
      (tx.status = "completed" ∨ tx.status = "failed") →
      check_payment_status db uid ref live = (.ok tx.status none, db)) ∧
    (∀ (db : DB) (otid mref : String) (gs : GatewayStatus) (tx : Transaction)
        (w : Wallet),
      otid ≠ "" → mref ≠ "" → findTxById db mref = some tx →
      findWalletByUser db tx.sender_id = some w → isCompletedOutcome gs →
      tx.status = "completed" →
      pesapay_callback db (some otid) (some mref) (some gs) = (.ok, db)) ∧
    (∀ (db : DB) (otid mref : String) (gs : GatewayStatus) (tx : Transaction)
        (w : Wallet),
      otid ≠ "" → mref ≠ "" → findTxById db mref = some tx →
      findWalletByUser db tx.sender_id = some w → ¬ isCompletedOutcome gs →
      isFailedOutcome gs → tx.status = "failed" →
      pesapay_callback db (some otid) (some mref) (some gs) = (.ok, db)) := by
  refine ⟨?_, ?_, ?_⟩
  · intro db uid ref tx live htx hsend hterm
    have hnp : tx.status ≠ "pending" := by
      rcases hterm with h | h <;> rw [h] <;> decide
    exact poll_red_noop_nonpending db uid ref tx live htx hsend hnp
  · intro db otid mref gs tx w ho hm htx hw hc hstat
    exact callback_red_completed_noop db otid mref gs tx w ho hm htx hw hc hstat
  · intro db otid mref gs tx w ho hm htx hw hnc hf hstat
    exact callback_red_failed_noop db otid mref gs tx w ho hm htx hw hnc hf hstat

theorem terminal_reconcile_noop_on_matching_outcome_witness :
    check_payment_status
      ⟨[⟨1, 1, "WA", 7, "active"⟩],
       [⟨"P1", 1, 1, 100, 0, 100, "pesapay_deposit", "completed", "x",
         some "OT1", some "P1"⟩]⟩ 1 "P1" (some 1) =
      (.ok "completed" none,
        ⟨[⟨1, 1, "WA", 7, "active"⟩],
         [⟨"P1", 1, 1, 100, 0, 100, "pesapay_deposit", "completed", "x",
           some "OT1", some "P1"⟩]⟩) ∧
    pesapay_callback
      ⟨[⟨1, 1, "WA", 7, "active"⟩],
       [⟨"P1", 1, 1, 100, 0, 100, "pesapay_deposit", "completed", "x",
         some "OT1", some "P1"⟩]⟩ (some "OT1") (some "P1")
      (some ⟨"COMPLETED", 100, some 1, "M"⟩) =
      (.ok,
        ⟨[⟨1, 1, "WA", 7, "active"⟩],
         [⟨"P1", 1, 1, 100, 0, 100, "pesapay_deposit", "completed", "x",
           some "OT1", some "P1"⟩]⟩) ∧
    pesapay_callback
      ⟨[⟨1, 1, "WA", 7, "active"⟩],
       [⟨"P1", 1, 1, 100, 0, 100, "pesapay_deposit", "failed", "x",
         some "OT1", some "P1"⟩]⟩ (some "OT1") (some "P1")
      (some ⟨"FAILED", 100, some 2, "M"⟩) =
      (.ok,
        ⟨[⟨1, 1, "WA", 7, "active"⟩],
         [⟨"P1", 1, 1, 100, 0, 100, "pesapay_deposit", "failed", "x",
           some "OT1", some "P1"⟩]⟩) := by
  have H := terminal_reconcile_noop_on_matching_outcome
  refine ⟨?_, ?_, ?_⟩
  · have := H.1
      ⟨[⟨1, 1, "WA", 7, "active"⟩],
       [⟨"P1", 1, 1, 100, 0, 100, "pesapay_deposit", "completed", "x",
         some "OT1", some "P1"⟩]⟩ 1 "P1"
      ⟨"P1", 1, 1, 100, 0, 100, "pesapay_deposit", "completed", "x",
        some "OT1", some "P1"⟩ (some 1) rfl rfl (Or.inl rfl)
    exact this
  · exact H.2.1
      ⟨[⟨1, 1, "WA", 7, "active"⟩],
       [⟨"P1", 1, 1, 100, 0, 100, "pesapay_deposit", "completed", "x",
         some "OT1", some "P1"⟩]⟩ "OT1" "P1" ⟨"COMPLETED", 100, some 1, "M"⟩
      ⟨"P1", 1, 1, 100, 0, 100, "pesapay_deposit", "completed", "x",
        some "OT1", some "P1"⟩ ⟨1, 1, "WA", 7, "active"⟩ (by decide) (by decide)
      rfl rfl (Or.inl rfl) rfl
  · exact H.2.2
      ⟨[⟨1, 1, "WA", 7, "active"⟩],
       [⟨"P1", 1, 1, 100, 0, 100, "pesapay_deposit", "failed", "x",
         some "OT1", some "P1"⟩]⟩ "OT1" "P1" ⟨"FAILED", 100, some 2, "M"⟩
      ⟨"P1", 1, 1, 100, 0, 100, "pesapay_deposit", "failed", "x", some "OT1",
        some "P1"⟩ ⟨1, 1, "WA", 7, "active"⟩ (by decide) (by decide) rfl rfl
      (by decide) (by decide) rfl

/-- C2 counterexample -/
theorem poll_credits_stored_not_reported_amount_cex :
    check_pesapal_transaction_status (some ⟨"COMPLETED", 50, some 1, "M"⟩) = 1 ∧
    (⟨"COMPLETED", 50, some 1, "M"⟩ : GatewayStatus).amount = 50 ∧
    findWalletByUser (check_payment_status
        ⟨[⟨1, 1, "WA", 0, "active"⟩],
         [⟨"P1", 1, 1, 100, 0, 100, "pesapay_deposit", "pending", "x",
           some "OT1", some "P1"⟩]⟩ 1 "P1"
        (some (check_pesapal_transaction_status
          (some ⟨"COMPLETED", 50, some 1, "M"⟩)))).2 1 =
      some ⟨1, 1, "WA", 100, "active"⟩ := by
  have hc0 : isCompletedOutcome ⟨"COMPLETED", 50, some 1, "M"⟩ := Or.inl rfl
  have h1 : check_pesapal_transaction_status
      (some ⟨"COMPLETED", 50, some 1, "M"⟩) = 1 := by
    simp only [check_pesapal_transaction_status]
    rw [if_pos hc0]
  have hred := poll_red_credit
    ⟨[⟨1, 1, "WA", 0, "active"⟩],
     [⟨"P1", 1, 1, 100, 0, 100, "pesapay_deposit", "pending", "x", some "OT1",
       some "P1"⟩]⟩ 1 "P1"
    ⟨"P1", 1, 1, 100, 0, 100, "pesapay_deposit", "pending", "x", some "OT1",
      some "P1"⟩ ⟨1, 1, "WA", 0, "active"⟩ rfl rfl rfl (by decide) rfl
  refine ⟨h1, rfl, ?_⟩
  rw [h1]
  simp only [hred, findWalletByUser]
  rw [findWalletByUser_adjustByUser]
  have hw' : List.find? (fun x => x.user_id == 1)
      [(⟨1, 1, "WA", 0, "active"⟩ : Wallet)] =
      some ⟨1, 1, "WA", 0, "active"⟩ := rfl
  rw [hw']
  simp only [Option.map_some']
  norm_num

/-- C2 amended -/
theorem pending_success_credit_amounts :
    (∀ (db : DB) (otid mref : String) (gs : GatewayStatus) (tx : Transaction)
        (w : Wallet),
      otid ≠ "" → mref ≠ "" → findTxById db mref = some tx →
      findWalletByUser db tx.sender_id = some w → isCompletedOutcome gs →
      tx.status = "pending" →
      (pesapay_callback db (some otid) (some mref) (some gs)).1 = .ok ∧
      findWalletByUser (pesapay_callback db (some otid) (some mref)
          (some gs)).2 tx.sender_id =
        some { w with balance := w.balance + gs.amount } ∧
      findTxById (pesapay_callback db (some otid) (some mref) (some gs)).2 mref =
        some { tx with
          status := "completed"
          amount := gs.amount
          note := "Pesapal deposit successful - TXN: " ++ otid ++ " via " ++
            gs.payment_method
          merchant_request_id := some otid }) ∧
    (∀ (db : DB) (uid : Nat) (ref : String) (tx : Transaction) (w : Wallet),
      findTxById db ref = some tx → tx.sender_id = uid →
      tx.status = "pending" → hasMri tx.merchant_request_id = true →
      findWalletByUser db uid = some w →
      (check_payment_status db uid ref (some 1)).1 = .ok "completed" (some 1) ∧
      findWalletByUser (check_payment_status db uid ref (some 1)).2 uid =
        some { w with balance := w.balance + tx.amount } ∧
      findTxById (check_payment_status db uid ref (some 1)).2 ref =
        some { tx with
          status := "completed"
          note := "Pesapal deposit completed (verified via status check)" }) := by
  constructor
  · intro db otid mref gs tx w ho hm htx hw hc hpend
    have hid : tx.transaction_id = mref := by
      have := List.find?_some htx
      simpa using this
    have huid : w.user_id = tx.sender_id := by
      have := List.find?_some hw
      simpa using this
    have hnc : tx.status ≠ "completed" := by
      rw [hpend]
      decide
    have hred := callback_red_completed db otid mref gs tx w ho hm htx hw hc hnc
    refine ⟨by rw [hred], ?_, ?_⟩
    · simp only [hred, findWalletByUser]
      rw [findWalletByUser_adjustByUser]
      have hw' : db.wallets.find? (fun x => x.user_id == tx.sender_id) =
          some w := hw
      rw [hw']
      simp only [Option.map_some']
      rw [if_pos huid]
    · simp only [hred, findTxById]
      rw [findTxById_updTx]
      · have htx' : db.transactions.find? (fun t => t.transaction_id == mref) =
            some tx := htx
        rw [htx']
        simp only [Option.map_some']
        rw [if_pos hid]
      · intro t
        rfl
  · intro db uid ref tx w htx hsend hpend hmri hw
    have hid : tx.transaction_id = ref := by
      have := List.find?_some htx
      simpa using this
    have huid : w.user_id = uid := by
      have := List.find?_some hw
      simpa using this
    have hred := poll_red_credit db uid ref tx w htx hsend hpend hmri hw
    refine ⟨by rw [hred], ?_, ?_⟩
    · simp only [hred, findWalletByUser]
      rw [findWalletByUser_adjustByUser]
      have hw' : db.wallets.find? (fun x => x.user_id == uid) = some w := hw
      rw [hw']
      simp only [Option.map_some']
      rw [if_pos huid]
    · simp only [hred, findTxById]
      rw [findTxById_updTx]
      · have htx' : db.transactions.find? (fun t => t.transaction_id == ref) =
            some tx := htx
        rw [htx']
        simp only [Option.map_some']
        rw [if_pos hid]
      · intro t
        rfl

theorem pending_success_credit_amounts_witness :
    findWalletByUser (pesapay_callback
        ⟨[⟨1, 1, "WA", 0, "active"⟩],
         [⟨"P1", 1, 1, 100, 0, 100, "pesapay_deposit", "pending", "x",
           some "OT1", some "P1"⟩]⟩ (some "OT1") (some "P1")
        (some ⟨"COMPLETED", 50, some 1, "M"⟩)).2 1 =
      some ⟨1, 1, "WA", 50, "active"⟩ ∧
    findWalletByUser (check_payment_status
        ⟨[⟨1, 1, "WA", 0, "active"⟩],
         [⟨"P1", 1, 1, 100, 0, 100, "pesapay_deposit", "pending", "x",
           some "OT1", some "P1"⟩]⟩ 1 "P1" (some 1)).2 1 =
      some ⟨1, 1, "WA", 100, "active"⟩ := by
  have H := pending_success_credit_amounts
  constructor
  · have h := (H.1
      ⟨[⟨1, 1, "WA", 0, "active"⟩],
       [⟨"P1", 1, 1, 100, 0, 100, "pesapay_deposit", "pending", "x",
         some "OT1", some "P1"⟩]⟩ "OT1" "P1" ⟨"COMPLETED", 50, some 1, "M"⟩
      ⟨"P1", 1, 1, 100, 0, 100, "pesapay_deposit", "pending", "x", some "OT1",
        some "P1"⟩ ⟨1, 1, "WA", 0, "active"⟩ (by decide) (by decide) rfl rfl
      (Or.inl rfl) rfl).2.1
    norm_num at h ⊢
    convert h using 2
  · have h := (H.2
      ⟨[⟨1, 1, "WA", 0, "active"⟩],
       [⟨"P1", 1, 1, 100, 0, 100, "pesapay_deposit", "pending", "x",
         some "OT1", some "P1"⟩]⟩ 1 "P1"
      ⟨"P1", 1, 1, 100, 0, 100, "pesapay_deposit", "pending", "x", some "OT1",
        some "P1"⟩ ⟨1, 1, "WA", 0, "active"⟩ rfl rfl rfl (by decide) rfl).2.1
    norm_num at h ⊢
    convert h using 2

/-! ## Balance non-negativity invariant -/

/-- Every wallet balance is non-negative. -/
def NonnegBalances (db : DB) : Prop := ∀ w ∈ db.wallets, (0:ℚ) ≤ w.balance

/-- Every ledger row's amount is non-negative (all insertion paths guard
`amount > 0`; the gateway callback can overwrite an amount, see C4). -/
def NonnegAmounts (db : DB) : Prop := ∀ t ∈ db.transactions, (0:ℚ) ≤ t.amount

/-- The wallet table's external ids and primary keys are unique — the
store's uniqueness constraints (`wallet_id` unique, `id` primary key). -/
def UniqueWalletKeys (db : DB) : Prop :=
  (db.wallets.map (fun w => w.wallet_id)).Nodup ∧
  (db.wallets.map (fun w => w.id)).Nodup

/-- The ledger-store invariant used for balance non-negativity. -/
def LedgerInv (db : DB) : Prop :=
  NonnegBalances db ∧ NonnegAmounts db ∧ UniqueWalletKeys db

theorem balance_nonneg_map (l : List Wallet) (g : Wallet → Wallet)
    (hl : ∀ w ∈ l, (0:ℚ) ≤ w.balance)
    (h : ∀ w ∈ l, (0:ℚ) ≤ w.balance → (0:ℚ) ≤ (g w).balance) :
    ∀ w' ∈ l.map g, (0:ℚ) ≤ w'.balance := by
  intro w' hw'
  rcases List.mem_map.mp hw' with ⟨w, hw, rfl⟩
  exact h w hw (hl w hw)

theorem amount_nonneg_map (l : List Transaction) (g : Transaction → Transaction)
    (hl : ∀ t ∈ l, (0:ℚ) ≤ t.amount)
    (h : ∀ t ∈ l, (0:ℚ) ≤ t.amount → (0:ℚ) ≤ (g t).amount) :
    ∀ t' ∈ l.map g, (0:ℚ) ≤ t'.amount := by
  intro t' ht'
  rcases List.mem_map.mp ht' with ⟨t, ht, rfl⟩
  exact h t ht (hl t ht)

theorem nodup_keys_map {α κ : Type*} (k : α → κ) (g : α → α)
    (hg : ∀ a, k (g a) = k a) (l : List α) (h : (l.map k).Nodup) :
    ((l.map g).map k).Nodup := by
  rw [List.map_map]
  have hkg : k ∘ g = k := funext hg
  rw [hkg]
  exact h

theorem key_inj_of_nodup {α κ : Type*} (k : α → κ) {l : List α}
    (hnd : (l.map k).Nodup) {a b : α} (ha : a ∈ l) (hb : b ∈ l)
    (hk : k a = k b) : a = b :=
  List.inj_on_of_nodup_map hnd ha hb hk

theorem send_money_preserves_LedgerInv (db : DB) (uid : Nat)
    (wid? : Option String) (amount : ℚ) (note txid : String)
    (hinv : LedgerInv db) :
    LedgerInv (send_money db uid wid? amount note txid).2 := by
  obtain ⟨hB, hA, hW⟩ := hinv
  rcases wid? with _ | wid
  · exact ⟨hB, hA, hW⟩
  by_cases h0 : (wid = "" ∨ amount ≤ 0)
  · simp only [send_money, h0, if_true, ite_true]
    exact ⟨hB, hA, hW⟩
  rcases hfs : findWalletByUser db uid with _ | sw
  · simp only [send_money, h0, hfs, if_false, ite_false, not_false_eq_true]
    exact ⟨hB, hA, hW⟩
  rcases hfr : findWalletById db wid with _ | rw
  · simp only [send_money, h0, hfs, hfr, if_false, ite_false, not_false_eq_true]
    exact ⟨hB, hA, hW⟩
  by_cases hself : sw.wallet_id = rw.wallet_id
  · simp only [send_money, h0, hfs, hfr, hself, if_false, ite_false, ite_true,
      not_false_eq_true, if_true]
    exact ⟨hB, hA, hW⟩
  by_cases hlt : sw.balance < amount + calculate_fee amount
  · simp only [send_money, h0, hfs, hfr, hself, hlt, if_false, ite_false,
      ite_true, not_false_eq_true, if_true]
    exact ⟨hB, hA, hW⟩
  have hred : (send_money db uid (some wid) amount note txid).2 =
      ⟨adjustById (adjustById db.wallets sw.wallet_id
          (-(amount + calculate_fee amount))) rw.wallet_id amount,
        db.transactions ++
          [⟨txid, uid, rw.user_id, amount, calculate_fee amount,
            amount + calculate_fee amount, "transfer", "completed", note,
            none, none⟩]⟩ := by
    simp only [send_money, h0, hfs, hfr, hself, hlt, if_false, ite_false,
      not_false_eq_true]
  rw [hred]
  push_neg at h0
  have hamt : 0 < amount := h0.2
  have hbal : amount + calculate_fee amount ≤ sw.balance := not_lt.mp hlt
  have hsw_mem : sw ∈ db.wallets := List.mem_of_find?_eq_some hfs
  refine ⟨?_, ?_, ?_, ?_⟩
  · have step1 : ∀ w ∈ adjustById db.wallets sw.wallet_id
        (-(amount + calculate_fee amount)), (0:ℚ) ≤ w.balance := by
      apply balance_nonneg_map _ _ hB
      intro w hw hwb
      by_cases hkey : w.wallet_id = sw.wallet_id
      · have hww : w = sw := key_inj_of_nodup (fun x => x.wallet_id) hW.1 hw
          hsw_mem hkey
        subst hww
        simp only [hkey, if_pos]
        show (0:ℚ) ≤ w.balance + -(amount + calculate_fee amount)
        linarith
      · simpa [adjustById, hkey] using hwb
    apply balance_nonneg_map _ _ step1
    intro w hw hwb
    by_cases hkey : w.wallet_id = rw.wallet_id
    · simp only [hkey, if_pos]
      show (0:ℚ) ≤ w.balance + amount
      linarith
    · simpa [hkey] using hwb
  · intro t ht
    rcases List.mem_append.mp ht with h | h
    · exact hA t h
    · have : t = ⟨txid, uid, rw.user_id, amount, calculate_fee amount,
          amount + calculate_fee amount, "transfer", "completed", note,
          none, none⟩ := by simpa using h
      rw [this]
      exact le_of_lt hamt
  · apply nodup_keys_map
    · intro a
      by_cases h : a.wallet_id = rw.wallet_id <;> simp [h]
    · apply nodup_keys_map
      · intro a
        by_cases h : a.wallet_id = sw.wallet_id <;> simp [h]
      · exact hW.1
  · apply nodup_keys_map
    · intro a
      by_cases h : a.wallet_id = rw.wallet_id <;> simp [h]
    · apply nodup_keys_map
      · intro a
        by_cases h : a.wallet_id = sw.wallet_id <;> simp [h]
      · exact hW.2

theorem add_funds_preserves_LedgerInv (db : DB) (uid : Nat) (amount : ℚ)
    (note txid : String) (hinv : LedgerInv db) :
    LedgerInv (add_funds db uid amount note txid).2 := by
  obtain ⟨hB, hA, hW⟩ := hinv
  rcases hfs : findWalletByUser db uid with _ | w
  · simp only [add_funds, hfs]
    exact ⟨hB, hA, hW⟩
  by_cases h0 : amount ≤ 0
  · simp only [add_funds, hfs, h0, ite_true, if_true]
    exact ⟨hB, hA, hW⟩
  by_cases hmax : (10000:ℚ) < amount
  · simp only [add_funds, hfs, h0, hmax, ite_true, ite_false, if_true, if_false,
      not_false_eq_true]
    exact ⟨hB, hA, hW⟩
  have hred : (add_funds db uid amount note txid).2 =
      ⟨adjustByUser db.wallets uid amount,
        db.transactions ++ [⟨txid, uid, uid, amount, 0, amount, "add_funds",
          "completed", note, none, none⟩]⟩ := by
    simp only [add_funds, hfs, h0, hmax, ite_false, if_false, not_false_eq_true]
  rw [hred]
  have hamt : 0 < amount := lt_of_not_le h0
  refine ⟨?_, ?_, ?_, ?_⟩
  · apply balance_nonneg_map _ _ hB
    intro w' hw' hwb
    by_cases hkey : w'.user_id = uid
    · simp only [hkey, if_pos]
      show (0:ℚ) ≤ w'.balance + amount
      linarith
    · simpa [hkey] using hwb
  · intro t ht
    rcases List.mem_append.mp ht with h | h
    · exact hA t h
    · have : t = ⟨txid, uid, uid, amount, 0, amount, "add_funds", "completed",
          note, none, none⟩ := by simpa using h
      rw [this]
      exact le_of_lt hamt
  · apply nodup_keys_map
    · intro a
      by_cases h : a.user_id = uid <;> simp [h]
    · exact hW.1
  · apply nodup_keys_map
    · intro a
      by_cases h : a.user_id = uid <;> simp [h]
    · exact hW.2

theorem pesapay_deposit_preserves_LedgerInv (db : DB) (uid : Nat) (amount : ℚ)
    (txRef : String) (gw : GatewayInitResult) (hinv : LedgerInv db) :
    LedgerInv (pesapay_deposit db uid amount txRef gw).2 := by
  obtain ⟨hB, hA, hW⟩ := hinv
  by_cases h0 : amount ≤ 0
  · simp only [pesapay_deposit, h0, ite_true, if_true]
    exact ⟨hB, hA, hW⟩
  rcases hfs : findWalletByUser db uid with _ | w
  · simp only [pesapay_deposit, h0, hfs, ite_false, if_false, not_false_eq_true]
    exact ⟨hB, hA, hW⟩
  rcases gw with _ | _ | _ | _ | ⟨hs, bs, otid⟩
  · simp only [pesapay_deposit, h0, hfs, ite_false, if_false, not_false_eq_true]
    exact ⟨hB, hA, hW⟩
  · simp only [pesapay_deposit, h0, hfs, ite_false, if_false, not_false_eq_true]
    exact ⟨hB, hA, hW⟩
  · simp only [pesapay_deposit, h0, hfs, ite_false, if_false, not_false_eq_true]
    exact ⟨hB, hA, hW⟩
  · simp only [pesapay_deposit, h0, hfs, ite_false, if_false, not_false_eq_true]
    exact ⟨hB, hA, hW⟩
  by_cases hok : hs = 200 ∧ bs = "200"
  · have hred : (pesapay_deposit db uid amount txRef (.response hs bs otid)).2 =
        { db with transactions := db.transactions ++
            [⟨txRef, uid, uid, amount, 0, amount, "pesapay_deposit", "pending",
              "Pesapal deposit pending - Ref: " ++ txRef, otid, some txRef⟩] } := by
      simp only [pesapay_deposit, h0, hfs, hok, ite_false, ite_true, if_false,
        if_true, not_false_eq_true, and_self]
    rw [hred]
    refine ⟨hB, ?_, hW⟩
    intro t ht
    rcases List.mem_append.mp ht with h | h
    · exact hA t h
    · have : t = ⟨txRef, uid, uid, amount, 0, amount, "pesapay_deposit",
          "pending", "Pesapal deposit pending - Ref: " ++ txRef, otid,
          some txRef⟩ := by simpa using h
      rw [this]
      exact le_of_lt (lt_of_not_le h0)
  · simp only [pesapay_deposit, h0, hfs, hok, ite_false, if_false,
      not_false_eq_true]
    exact ⟨hB, hA, hW⟩

theorem admin_adjust_preserves_LedgerInv (db : DB) (wid : Nat) (action : String)
    (amount : ℚ) (note : String) (adminId : Nat) (txid : String)
    (hinv : LedgerInv db) :
    LedgerInv (admin_adjust_wallet db wid action amount note adminId txid).2 := by
  obtain ⟨hB, hA, hW⟩ := hinv
  rcases hfs : findWalletByPk db wid with _ | w
  · simp only [admin_adjust_wallet, hfs]
    exact ⟨hB, hA, hW⟩
  by_cases h0 : amount ≤ 0
  · simp only [admin_adjust_wallet, hfs, h0, ite_true, if_true]
    exact ⟨hB, hA, hW⟩
  have hamt : 0 < amount := lt_of_not_le h0
  have hw_mem : w ∈ db.wallets := List.mem_of_find?_eq_some hfs
  have hw_key : w.id = wid := by
    have := List.find?_some hfs
    simpa using this
  by_cases hadd : action = "add"
  · have hred : (admin_adjust_wallet db wid action amount note adminId txid).2 =
        ⟨adjustByPk db.wallets wid amount,
          db.transactions ++ [⟨txid, adminId, w.user_id, amount, 0, amount,
            "add_funds", "completed",
            (if note = "" then "Admin added funds" else "Admin added funds: " ++ note),
            none, none⟩]⟩ := by
      simp only [admin_adjust_wallet, hfs, h0, hadd, ite_true, ite_false,
        if_true, if_false, not_false_eq_true]
    rw [hred]
    refine ⟨?_, ?_, ?_, ?_⟩
    · apply balance_nonneg_map _ _ hB
      intro w' hw' hwb
      by_cases hkey : w'.id = wid
      · simp only [hkey, if_pos]
        show (0:ℚ) ≤ w'.balance + amount
        linarith
      · simpa [hkey] using hwb
    · intro t ht
      rcases List.mem_append.mp ht with h | h
      · exact hA t h
      · have : t = ⟨txid, adminId, w.user_id, amount, 0, amount, "add_funds",
            "completed",
            (if note = "" then "Admin added funds" else "Admin added funds: " ++ note),
            none, none⟩ := by simpa using h
        rw [this]
        exact le_of_lt hamt
    · apply nodup_keys_map
      · intro a
        by_cases h : a.id = wid <;> simp [h]
      · exact hW.1
    · apply nodup_keys_map
      · intro a
        by_cases h : a.id = wid <;> simp [h]
      · exact hW.2
  by_cases hded : action = "deduct"
  · have hda : ("deduct" : String) = "add" ↔ False := by simp
    by_cases hlt : w.balance < amount
    · simp only [admin_adjust_wallet, hfs, h0, hadd, hded, hda, hlt, ite_true,
        ite_false, if_true, if_false, not_false_eq_true]
      exact ⟨hB, hA, hW⟩
    have hred : (admin_adjust_wallet db wid action amount note adminId txid).2 =
        ⟨adjustByPk db.wallets wid (-amount),
          db.transactions ++ [⟨txid, w.user_id, adminId, amount, 0, amount,
            "admin_deduction", "completed",
            (if note = "" then "Admin deducted funds" else "Admin deducted funds: " ++ note),
            none, none⟩]⟩ := by
      simp only [admin_adjust_wallet, hfs, h0, hadd, hded, hda, hlt, ite_true,
        ite_false, if_true, if_false, not_false_eq_true]
    rw [hred]
    have hbal : amount ≤ w.balance := not_lt.mp hlt
    refine ⟨?_, ?_, ?_, ?_⟩
    · apply balance_nonneg_map _ _ hB
      intro w' hw' hwb
      by_cases hkey : w'.id = wid
      · have hww : w' = w := key_inj_of_nodup (fun x => x.id) hW.2 hw' hw_mem
          (hkey.trans hw_key.symm)
        subst hww
        simp only [hkey, if_pos]
        show (0:ℚ) ≤ w'.balance + -amount
        linarith
      · simpa [hkey] using hwb
    · intro t ht
      rcases List.mem_append.mp ht with h | h
      · exact hA t h
      · have : t = ⟨txid, w.user_id, adminId, amount, 0, amount,
            "admin_deduction", "completed",
            (if note = "" then "Admin deducted funds" else "Admin deducted funds: " ++ note),
            none, none⟩ := by simpa using h
        rw [this]
        exact le_of_lt hamt
    · apply nodup_keys_map
      · intro a
        by_cases h : a.id = wid <;> simp [h]
      · exact hW.1
    · apply nodup_keys_map
      · intro a
        by_cases h : a.id = wid <;> simp [h]
      · exact hW.2
  · simp only [admin_adjust_wallet, hfs, h0, hadd, hded, ite_false, if_false,
      not_false_eq_true]
    exact ⟨hB, hA, hW⟩

theorem callback_red_txnotfound (db : DB) (otid mref : String)
    (gs : GatewayStatus)
    (ho : otid ≠ "") (hm : mref ≠ "")
    (htx : findTxById db mref = none) :
    pesapay_callback db (some otid) (some mref) (some gs) = (.txNotFound, db) := by
  have hno : ¬(otid = "" ∨ mref = "") := not_or.mpr ⟨ho, hm⟩
  simp only [pesapay_callback, hno, htx, ite_false, not_false_eq_true, if_false]

theorem callback_red_processing (db : DB) (otid mref : String)
    (gs : GatewayStatus) (tx : Transaction) (w : Wallet)
    (ho : otid ≠ "") (hm : mref ≠ "")
    (htx : findTxById db mref = some tx)
    (hw : findWalletByUser db tx.sender_id = some w)
    (hnc : ¬ isCompletedOutcome gs) (hnf : ¬ isFailedOutcome gs) :
    pesapay_callback db (some otid) (some mref) (some gs) =
      (.ok, { db with transactions := updTx db.transactions mref (fun t =>
          { t with
            note := "Payment processing - " ++
              pyUpper gs.payment_status_description
            merchant_request_id := some otid }) }) := by
  have hno : ¬(otid = "" ∨ mref = "") := not_or.mpr ⟨ho, hm⟩
  simp only [pesapay_callback, hno, htx, hw, hnc, hnf, ite_false, ite_true,
    not_false_eq_true, if_false, if_true]

theorem updTx_preserves_NonnegAmounts (l : List Transaction) (tid : String)
    (f : Transaction → Transaction)
    (hf : ∀ t, (0:ℚ) ≤ t.amount → (0:ℚ) ≤ (f t).amount)
    (hl : ∀ t ∈ l, (0:ℚ) ≤ t.amount) :
    ∀ t' ∈ updTx l tid f, (0:ℚ) ≤ t'.amount := by
  apply amount_nonneg_map _ _ hl
  intro t _ ht
  by_cases h : t.transaction_id = tid
  · simpa [h] using hf t ht
  · simpa [h] using ht

theorem pesapay_callback_preserves_LedgerInv (db : DB) (otid? mref? : Option String)
    (fetch : Option GatewayStatus)
    (hgs : ∀ gs, fetch = some gs → (0:ℚ) ≤ gs.amount)
    (hinv : LedgerInv db) :
    LedgerInv (pesapay_callback db otid? mref? fetch).2 := by
  obtain ⟨hB, hA, hW⟩ := hinv
  rcases otid? with _ | otid
  · rcases mref? with _ | mref <;> exact ⟨hB, hA, hW⟩
  rcases mref? with _ | mref
  · exact ⟨hB, hA, hW⟩
  by_cases hblank : (otid = "" ∨ mref = "")
  · simp only [pesapay_callback, hblank, ite_true, if_true]
    exact ⟨hB, hA, hW⟩
  have ho : otid ≠ "" := fun h => hblank (Or.inl h)
  have hm : mref ≠ "" := fun h => hblank (Or.inr h)
  rcases fetch with _ | gs
  · simp only [pesapay_callback, hblank, ite_false, if_false, not_false_eq_true]
    exact ⟨hB, hA, hW⟩
  have hgs' : (0:ℚ) ≤ gs.amount := hgs gs rfl
  rcases htx : findTxById db mref with _ | tx
  · rw [callback_red_txnotfound db otid mref gs ho hm htx]
    exact ⟨hB, hA, hW⟩
  rcases hw : findWalletByUser db tx.sender_id with _ | w
  · rw [callback_red_nowallet db otid mref gs tx ho hm htx hw]
    refine ⟨hB, ?_, hW⟩
    apply updTx_preserves_NonnegAmounts _ _ _ _ hA
    intro t ht
    exact ht
  by_cases hc : isCompletedOutcome gs
  · by_cases hnc : tx.status = "completed"
    · rw [callback_red_completed_noop db otid mref gs tx w ho hm htx hw hc hnc]
      exact ⟨hB, hA, hW⟩
    · rw [callback_red_completed db otid mref gs tx w ho hm htx hw hc hnc]
      refine ⟨?_, ?_, ?_, ?_⟩
      · apply balance_nonneg_map _ _ hB
        intro w' _ hwb
        by_cases hkey : w'.user_id = tx.sender_id
        · simp only [hkey, if_pos]
          show (0:ℚ) ≤ w'.balance + gs.amount
          linarith
        · simpa [hkey] using hwb
      · apply updTx_preserves_NonnegAmounts _ _ _ _ hA
        intro t _
        exact hgs'
      · apply nodup_keys_map
        · intro a
          by_cases h : a.user_id = tx.sender_id <;> simp [h]
        · exact hW.1
      · apply nodup_keys_map
        · intro a
          by_cases h : a.user_id = tx.sender_id <;> simp [h]
        · exact hW.2
  by_cases hf : isFailedOutcome gs
  · by_cases hnf : tx.status = "failed"
    · rw [callback_red_failed_noop db otid mref gs tx w ho hm htx hw hc hf hnf]
      exact ⟨hB, hA, hW⟩
    · rw [callback_red_failed db otid mref gs tx w ho hm htx hw hc hf hnf]
      refine ⟨hB, ?_, hW⟩
      apply updTx_preserves_NonnegAmounts _ _ _ _ hA
      intro t ht
      exact ht
  · rw [callback_red_processing db otid mref gs tx w ho hm htx hw hc hf]
    refine ⟨hB, ?_, hW⟩
    apply updTx_preserves_NonnegAmounts _ _ _ _ hA
    intro t ht
    exact ht

theorem check_payment_status_preserves_LedgerInv (db : DB) (uid : Nat)
    (ref : String) (live : Option Nat) (hinv : LedgerInv db) :
    LedgerInv (check_payment_status db uid ref live).2 := by
  obtain ⟨hB, hA, hW⟩ := hinv
  rcases htx : findTxById db ref with _ | tx
  · simp only [check_payment_status, htx]
    exact ⟨hB, hA, hW⟩
  by_cases hsend : tx.sender_id ≠ uid
  · simp only [check_payment_status, htx, hsend, ne_eq, not_false_eq_true,
      ite_true, if_true]
    exact ⟨hB, hA, hW⟩
  by_cases hcond : (tx.status = "pending" ∧ hasMri tx.merchant_request_id = true)
  · rcases live with _ | ps
    · simp only [check_payment_status, htx, hsend, hcond, ite_true, ite_false,
        if_true, if_false, not_false_eq_true]
      exact ⟨hB, hA, hW⟩
    by_cases hps1 : ps = 1
    · subst hps1
      rcases hw : findWalletByUser db uid with _ | w
      · simp only [check_payment_status, htx, hsend, hcond, hw, ite_true,
          ite_false, if_true, if_false, not_false_eq_true]
        exact ⟨hB, hA, hW⟩
      · have hsend' : tx.sender_id = uid := not_not.mp hsend
        have hred := poll_red_credit db uid ref tx w htx hsend' hcond.1 hcond.2 hw
        rw [hred]
        have htamt : (0:ℚ) ≤ tx.amount :=
          hA tx (List.mem_of_find?_eq_some htx)
        refine ⟨?_, ?_, ?_, ?_⟩
        · apply balance_nonneg_map _ _ hB
          intro w' _ hwb
          by_cases hkey : w'.user_id = uid
          · simp only [hkey, if_pos]
            show (0:ℚ) ≤ w'.balance + tx.amount
            linarith
          · simpa [hkey] using hwb
        · apply updTx_preserves_NonnegAmounts _ _ _ _ hA
          intro t ht
          exact ht
        · apply nodup_keys_map
          · intro a
            by_cases h : a.user_id = uid <;> simp [h]
          · exact hW.1
        · apply nodup_keys_map
          · intro a
            by_cases h : a.user_id = uid <;> simp [h]
          · exact hW.2
    by_cases hps23 : (ps = 2 ∨ ps = 3)
    · simp only [check_payment_status, htx, hsend, hcond, hps1, hps23, ite_true,
        ite_false, if_true, if_false, not_false_eq_true]
      refine ⟨hB, ?_, hW⟩
      apply updTx_preserves_NonnegAmounts _ _ _ _ hA
      intro t ht
      exact ht
    · simp only [check_payment_status, htx, hsend, hcond, hps1, hps23, ite_true,
        ite_false, if_true, if_false, not_false_eq_true]
      exact ⟨hB, hA, hW⟩
  · simp only [check_payment_status, htx, hsend, hcond, ite_false, if_false,
      not_false_eq_true]
    exact ⟨hB, hA, hW⟩

theorem send_money_row_pairing (db : DB) (uid : Nat) (wid? : Option String)
    (amount : ℚ) (note txid : String) :
    (send_money db uid wid? amount note txid).2.wallets = db.wallets ∨
    ∃ t, (send_money db uid wid? amount note txid).2.transactions =
      db.transactions ++ [t] := by
  rcases wid? with _ | wid
  · exact Or.inl rfl
  by_cases h0 : (wid = "" ∨ amount ≤ 0)
  · simp only [send_money, h0, if_true, ite_true]
    exact Or.inl (by simp)
  rcases hfs : findWalletByUser db uid with _ | sw
  · simp only [send_money, h0, hfs, if_false, ite_false, not_false_eq_true]
    exact Or.inl (by simp)
  rcases hfr : findWalletById db wid with _ | rw
  · simp only [send_money, h0, hfs, hfr, if_false, ite_false, not_false_eq_true]
    exact Or.inl (by simp)
  by_cases hself : sw.wallet_id = rw.wallet_id
  · simp only [send_money, h0, hfs, hfr, hself, if_false, ite_false, ite_true,
      not_false_eq_true, if_true]
    exact Or.inl (by simp)
  by_cases hlt : sw.balance < amount + calculate_fee amount
  · simp only [send_money, h0, hfs, hfr, hself, hlt, if_false, ite_false,
      ite_true, not_false_eq_true, if_true]
    exact Or.inl (by simp)
  · simp only [send_money, h0, hfs, hfr, hself, hlt, if_false, ite_false,
      not_false_eq_true]
    exact Or.inr ⟨_, rfl⟩

theorem add_funds_row_pairing (db : DB) (uid : Nat) (amount : ℚ)
    (note txid : String) :
    (add_funds db uid amount note txid).2.wallets = db.wallets ∨
    ∃ t, (add_funds db uid amount note txid).2.transactions =
      db.transactions ++ [t] := by
  rcases hfs : findWalletByUser db uid with _ | w
  · simp only [add_funds, hfs]
    exact Or.inl (by simp)
  by_cases h0 : amount ≤ 0
  · simp only [add_funds, hfs, h0, ite_true, if_true]
    exact Or.inl (by simp)
  by_cases hmax : (10000:ℚ) < amount
  · simp only [add_funds, hfs, h0, hmax, ite_true, ite_false, if_true, if_false,
      not_false_eq_true]
    exact Or.inl (by simp)
  · simp only [add_funds, hfs, h0, hmax, ite_false, if_false, not_false_eq_true]
    exact Or.inr ⟨_, rfl⟩

theorem pesapay_deposit_row_pairing (db : DB) (uid : Nat) (amount : ℚ)
    (txRef : String) (gw : GatewayInitResult) :
    (pesapay_deposit db uid amount txRef gw).2.wallets = db.wallets ∧
    ((pesapay_deposit db uid amount txRef gw).2.transactions = db.transactions ∨
    ∃ t, (pesapay_deposit db uid amount txRef gw).2.transactions =
      db.transactions ++ [t]) := by
  by_cases h0 : amount ≤ 0
  · simp only [pesapay_deposit, h0, ite_true, if_true]
    exact ⟨by simp, Or.inl (by simp)⟩
  rcases hfs : findWalletByUser db uid with _ | w
  · simp only [pesapay_deposit, h0, hfs, ite_false, if_false, not_false_eq_true]
    exact ⟨by simp, Or.inl (by simp)⟩
  rcases gw with _ | _ | _ | _ | ⟨hs, bs, otid⟩
  · simp only [pesapay_deposit, h0, hfs, ite_false, if_false, not_false_eq_true]
    exact ⟨by simp, Or.inl (by simp)⟩
  · simp only [pesapay_deposit, h0, hfs, ite_false, if_false, not_false_eq_true]
    exact ⟨by simp, Or.inl (by simp)⟩
  · simp only [pesapay_deposit, h0, hfs, ite_false, if_false, not_false_eq_true]
    exact ⟨by simp, Or.inl (by simp)⟩
  · simp only [pesapay_deposit, h0, hfs, ite_false, if_false, not_false_eq_true]
    exact ⟨by simp, Or.inl (by simp)⟩
  by_cases hok : hs = 200 ∧ bs = "200"
  · simp only [pesapay_deposit, h0, hfs, hok, ite_false, ite_true, if_false,
      if_true, not_false_eq_true, and_self]
    exact ⟨by simp, Or.inr ⟨_, rfl⟩⟩
  · simp only [pesapay_deposit, h0, hfs, hok, ite_false, if_false,
      not_false_eq_true]
    exact ⟨by simp, Or.inl (by simp)⟩

theorem admin_adjust_row_pairing (db : DB) (wid : Nat) (action : String)
    (amount : ℚ) (note : String) (adminId : Nat) (txid : String) :
    (admin_adjust_wallet db wid action amount note adminId txid).2.wallets =
      db.wallets ∨
    ∃ t, (admin_adjust_wallet db wid action amount note adminId
      txid).2.transactions = db.transactions ++ [t] := by
  rcases hfs : findWalletByPk db wid with _ | w
  · simp only [admin_adjust_wallet, hfs]
    exact Or.inl (by simp)
  by_cases h0 : amount ≤ 0
  · simp only [admin_adjust_wallet, hfs, h0, ite_true, if_true]
    exact Or.inl (by simp)
  by_cases hadd : action = "add"
  · simp only [admin_adjust_wallet, hfs, h0, hadd, ite_true, ite_false, if_true,
      if_false, not_false_eq_true]
    exact Or.inr ⟨_, rfl⟩
  by_cases hded : action = "deduct"
  · have hda : ("deduct" : String) = "add" ↔ False := by simp
    by_cases hlt : w.balance < amount
    · simp only [admin_adjust_wallet, hfs, h0, hadd, hded, hda, hlt, ite_true,
        ite_false, if_true, if_false, not_false_eq_true]
      exact Or.inl (by simp)
    · simp only [admin_adjust_wallet, hfs, h0, hadd, hded, hda, hlt, ite_true,
        ite_false, if_true, if_false, not_false_eq_true]
      exact Or.inr ⟨_, rfl⟩
  · simp only [admin_adjust_wallet, hfs, h0, hadd, hded, ite_false, if_false,
      not_false_eq_true]
    exact Or.inl (by simp)

theorem pesapay_callback_no_row_created (db : DB) (otid? mref? : Option String)
    (fetch : Option GatewayStatus) :
    (pesapay_callback db otid? mref? fetch).2.transactions.length =
      db.transactions.length := by
  rcases otid? with _ | otid
  · rcases mref? with _ | mref <;> rfl
  rcases mref? with _ | mref
  · rfl
  by_cases hblank : (otid = "" ∨ mref = "")
  · simp only [pesapay_callback, hblank, ite_true, if_true]
  rcases fetch with _ | gs
  · simp only [pesapay_callback, hblank, ite_false, if_false, not_false_eq_true]
  rcases htx : findTxById db mref with _ | tx
  · rw [callback_red_txnotfound db otid mref gs (fun h => hblank (Or.inl h))
      (fun h => hblank (Or.inr h)) htx]
  rcases hw : findWalletByUser db tx.sender_id with _ | w
  · rw [callback_red_nowallet db otid mref gs tx (fun h => hblank (Or.inl h))
      (fun h => hblank (Or.inr h)) htx hw]
    simp [updTx]
  have ho : otid ≠ "" := fun h => hblank (Or.inl h)
  have hm : mref ≠ "" := fun h => hblank (Or.inr h)
  by_cases hc : isCompletedOutcome gs
  · by_cases hnc : tx.status = "completed"
    · rw [callback_red_completed_noop db otid mref gs tx w ho hm htx hw hc hnc]
    · rw [callback_red_completed db otid mref gs tx w ho hm htx hw hc hnc]
      simp [updTx]
  by_cases hf : isFailedOutcome gs
  · by_cases hnf : tx.status = "failed"
    · rw [callback_red_failed_noop db otid mref gs tx w ho hm htx hw hc hf hnf]
    · rw [callback_red_failed db otid mref gs tx w ho hm htx hw hc hf hnf]
      simp [updTx]
  · rw [callback_red_processing db otid mref gs tx w ho hm htx hw hc hf]
    simp [updTx]

theorem check_payment_status_no_row_created (db : DB) (uid : Nat) (ref : String)
    (live : Option Nat) :
    (check_payment_status db uid ref live).2.transactions.length =
      db.transactions.length := by
  rcases htx : findTxById db ref with _ | tx
  · simp only [check_payment_status, htx]
  by_cases hsend : tx.sender_id ≠ uid
  · simp only [check_payment_status, htx, hsend, ne_eq, not_false_eq_true,
      ite_true, if_true]
  by_cases hcond : (tx.status = "pending" ∧ hasMri tx.merchant_request_id = true)
  · rcases live with _ | ps
    · simp only [check_payment_status, htx, hsend, hcond, ite_true, ite_false,
        if_true, if_false, not_false_eq_true]
      rfl
    by_cases hps1 : ps = 1
    · subst hps1
      rcases hw : findWalletByUser db uid with _ | w
      · simp only [check_payment_status, htx, hsend, hcond, hw, ite_true,
          ite_false, if_true, if_false, not_false_eq_true]
        rfl
      · have hsend' : tx.sender_id = uid := not_not.mp hsend
        rw [poll_red_credit db uid ref tx w htx hsend' hcond.1 hcond.2 hw]
        simp [updTx]
    by_cases hps23 : (ps = 2 ∨ ps = 3)
    · simp only [check_payment_status, htx, hsend, hcond, hps1, hps23, ite_true,
        ite_false, if_true, if_false, not_false_eq_true]
      simp [updTx]
    · simp only [check_payment_status, htx, hsend, hcond, hps1, hps23, ite_true,
        ite_false, if_true, if_false, not_false_eq_true]
      rfl
  · simp only [check_payment_status, htx, hsend, hcond, ite_false, if_false,
      not_false_eq_true]

/-- C4 counterexample -/
theorem callback_negative_gateway_amount_breaks_nonneg_cex :
    ((0:ℚ) ≤ 50) ∧
    findWalletByUser (pesapay_callback
        ⟨[⟨1, 1, "WA", 50, "active"⟩],
         [⟨"P1", 1, 1, 100, 0, 100, "pesapay_deposit", "pending", "x",
           some "OT1", some "P1"⟩]⟩ (some "OT1") (some "P1")
        (some ⟨"COMPLETED", -100, some 1, "M"⟩)).2 1 =
      some ⟨1, 1, "WA", -50, "active"⟩ ∧
    ((-50:ℚ) < 0) := by
  have hred := callback_red_completed
    ⟨[⟨1, 1, "WA", 50, "active"⟩],
     [⟨"P1", 1, 1, 100, 0, 100, "pesapay_deposit", "pending", "x", some "OT1",
       some "P1"⟩]⟩ "OT1" "P1" ⟨"COMPLETED", -100, some 1, "M"⟩
    ⟨"P1", 1, 1, 100, 0, 100, "pesapay_deposit", "pending", "x", some "OT1",
      some "P1"⟩ ⟨1, 1, "WA", 50, "active"⟩ (by decide) (by decide) rfl rfl
    (Or.inl rfl) (by decide)
  refine ⟨by norm_num, ?_, by norm_num⟩
  simp only [hred, findWalletByUser]
  rw [findWalletByUser_adjustByUser]
  have hw' : List.find? (fun x => x.user_id == 1)
      [(⟨1, 1, "WA", 50, "active"⟩ : Wallet)] =
      some ⟨1, 1, "WA", 50, "active"⟩ := rfl
  rw [hw']
  simp only [Option.map_some']
  norm_num

/-- C4 amended -/
theorem ledger_ops_preserve_nonneg_and_pairing :
    ((∀ (db : DB) (uid : Nat) (wid? : Option String) (amount : ℚ)
        (note txid : String), LedgerInv db →
      LedgerInv (send_money db uid wid? amount note txid).2) ∧
    (∀ (db : DB) (uid : Nat) (amount : ℚ) (note txid : String), LedgerInv db →
      LedgerInv (add_funds db uid amount note txid).2) ∧
    (∀ (db : DB) (uid : Nat) (amount : ℚ) (txRef : String)
        (gw : GatewayInitResult), LedgerInv db →
      LedgerInv (pesapay_deposit db uid amount txRef gw).2) ∧
    (∀ (db : DB) (wid : Nat) (action : String) (amount : ℚ) (note : String)
        (adminId : Nat) (txid : String), LedgerInv db →
      LedgerInv (admin_adjust_wallet db wid action amount note adminId txid).2) ∧
    (∀ (db : DB) (otid? mref? : Option String) (fetch : Option GatewayStatus),
      (∀ gs, fetch = some gs → (0:ℚ) ≤ gs.amount) → LedgerInv db →
      LedgerInv (pesapay_callback db otid? mref? fetch).2) ∧
    (∀ (db : DB) (uid : Nat) (ref : String) (live : Option Nat), LedgerInv db →
      LedgerInv (check_payment_status db uid ref live).2)) ∧
    ((∀ (db : DB) (uid : Nat) (wid? : Option String) (amount : ℚ)
        (note txid : String),
      (send_money db uid wid? amount note txid).2.wallets = db.wallets ∨
      ∃ t, (send_money db uid wid? amount note txid).2.transactions =
        db.transactions ++ [t]) ∧
    (∀ (db : DB) (uid : Nat) (amount : ℚ) (note txid : String),
      (add_funds db uid amount note txid).2.wallets = db.wallets ∨
      ∃ t, (add_funds db uid amount note txid).2.transactions =
        db.transactions ++ [t]) ∧
    (∀ (db : DB) (uid : Nat) (amount : ℚ) (txRef : String)
        (gw : GatewayInitResult),
      (pesapay_deposit db uid amount txRef gw).2.wallets = db.wallets) ∧
    (∀ (db : DB) (wid : Nat) (action : String) (amount : ℚ) (note : String)
        (adminId : Nat) (txid : String),
      (admin_adjust_wallet db wid action amount note adminId txid).2.wallets =
        db.wallets ∨
      ∃ t, (admin_adjust_wallet db wid action amount note adminId
        txid).2.transactions = db.transactions ++ [t]) ∧
    (∀ (db : DB) (otid? mref? : Option String) (fetch : Option GatewayStatus),
      (pesapay_callback db otid? mref? fetch).2.transactions.length =
        db.transactions.length) ∧
    (∀ (db : DB) (uid : Nat) (ref : String) (live : Option Nat),
      (check_payment_status db uid ref live).2.transactions.length =
        db.transactions.length)) := by
  refine ⟨⟨?_, ?_, ?_, ?_, ?_, ?_⟩, ⟨?_, ?_, ?_, ?_, ?_, ?_⟩⟩
  · intro db uid wid? amount note txid hinv
    exact send_money_preserves_LedgerInv db uid wid? amount note txid hinv
  · intro db uid amount note txid hinv
    exact add_funds_preserves_LedgerInv db uid amount note txid hinv
  · intro db uid amount txRef gw hinv
    exact pesapay_deposit_preserves_LedgerInv db uid amount txRef gw hinv
  · intro db wid action amount note adminId txid hinv
    exact admin_adjust_preserves_LedgerInv db wid action amount note adminId
      txid hinv
  · intro db otid? mref? fetch hgs hinv
    exact pesapay_callback_preserves_LedgerInv db otid? mref? fetch hgs hinv
  · intro db uid ref live hinv
    exact check_payment_status_preserves_LedgerInv db uid ref live hinv
  · intro db uid wid? amount note txid
    exact send_money_row_pairing db uid wid? amount note txid
  · intro db uid amount note txid
    exact add_funds_row_pairing db uid amount note txid
  · intro db uid amount txRef gw
    exact (pesapay_deposit_row_pairing db uid amount txRef gw).1
  · intro db wid action amount note adminId txid
    exact admin_adjust_row_pairing db wid action amount note adminId txid
  · intro db otid? mref? fetch
    exact pesapay_callback_no_row_created db otid? mref? fetch
  · intro db uid ref live
    exact check_payment_status_no_row_created db uid ref live

theorem ledger_ops_preserve_nonneg_and_pairing_witness :
    LedgerInv (send_money
      ⟨[⟨1, 1, "WA", 100, "active"⟩, ⟨2, 2, "WB", 0, "active"⟩], []⟩ 1
      (some "WB") 50 "x" "T1").2 ∧
    LedgerInv (pesapay_callback
      ⟨[⟨1, 1, "WA", 50, "active"⟩],
       [⟨"P1", 1, 1, 100, 0, 100, "pesapay_deposit", "pending", "x",
         some "OT1", some "P1"⟩]⟩ (some "OT1") (some "P1")
      (some ⟨"COMPLETED", 30, some 1, "M"⟩)).2 := by
  have hinv1 : LedgerInv
      ⟨[⟨1, 1, "WA", 100, "active"⟩, ⟨2, 2, "WB", 0, "active"⟩], []⟩ := by
    refine ⟨?_, ?_, ?_, ?_⟩
    · intro w hw
      simp only [List.mem_cons, List.not_mem_nil, or_false] at hw
      rcases hw with rfl | rfl <;> norm_num
    · intro t ht
      simp at ht
    · decide
    · decide
  have hinv2 : LedgerInv
      ⟨[⟨1, 1, "WA", 50, "active"⟩],
       [⟨"P1", 1, 1, 100, 0, 100, "pesapay_deposit", "pending", "x",
         some "OT1", some "P1"⟩]⟩ := by
    refine ⟨?_, ?_, ?_, ?_⟩
    · intro w hw
      simp only [List.mem_cons, List.not_mem_nil, or_false] at hw
      rcases hw with rfl
      norm_num
    · intro t ht
      simp only [List.mem_cons, List.not_mem_nil, or_false] at ht
      rcases ht with rfl
      norm_num
    · decide
    · decide
  constructor
  · exact ledger_ops_preserve_nonneg_and_pairing.1.1
      ⟨[⟨1, 1, "WA", 100, "active"⟩, ⟨2, 2, "WB", 0, "active"⟩], []⟩ 1
      (some "WB") 50 "x" "T1" hinv1
  · apply ledger_ops_preserve_nonneg_and_pairing.1.2.2.2.2.1
      ⟨[⟨1, 1, "WA", 50, "active"⟩],
       [⟨"P1", 1, 1, 100, 0, 100, "pesapay_deposit", "pending", "x",
         some "OT1", some "P1"⟩]⟩ (some "OT1") (some "P1")
      (some ⟨"COMPLETED", 30, some 1, "M"⟩) ?_ hinv2
    intro gs hgs
    cases hgs
    norm_num
